import Mathlib

/-!
Verification of the synthetic population and assignment engine of
`simulador_reduced.py` (bepensa-commercial-intelligence).

The Python source is shallowly embedded: pure fragments become Lean
functions over `Nat`/`Int`/`ℚ`/`List`; the seeded NumPy/stdlib random
generators are modelled as explicit streams of primitive draws (a run is
a pure function of its seed, so every draw is one value of such a
stream); Python floats are modelled as exact rationals.
-/

namespace Simulador

/-! ## Weight normalizer (`normalizar_pesos`, lines 181-197) -/

/-- Round a rational to the nearest integer, half to even (Python rounding). -/
def redondeaMitadPar (s : ℚ) : ℤ :=
  if s - ⌊s⌋ < 1/2 then ⌊s⌋
  else if 1/2 < s - ⌊s⌋ then ⌊s⌋ + 1
  else if ⌊s⌋ % 2 = 0 then ⌊s⌋ else ⌊s⌋ + 1

/-- Python's `round(x, 6)`: scale by `10^6`, round half to even, unscale. -/
def pyRound6 (q : ℚ) : ℚ :=
  (redondeaMitadPar (q * 1000000) : ℚ) / 1000000

theorem pyRound6_un_sexto : pyRound6 (1/6) = 166667/1000000 := by
  unfold pyRound6 redondeaMitadPar
  norm_num

theorem pyRound6_un_cuarto : pyRound6 (1/4) = 1/4 := by
  unfold pyRound6 redondeaMitadPar
  norm_num

theorem pyRound6_un_medio : pyRound6 (1/2) = 1/2 := by
  unfold pyRound6 redondeaMitadPar
  norm_num

/-- `math.isclose(a, b, abs_tol=absTol)` with Python's default `rel_tol = 1e-9`. -/
def isClose (a b absTol : ℚ) : Bool :=
  decide (|a - b| ≤ max ((1/1000000000) * max |a| |b|) absTol)

/-- Result of a successful normalization: whether the off-by-more-than-tolerance
warning was logged, and the normalized weight column. -/
structure ResultadoNorm where
  aviso : Bool
  pesosNormalizados : List ℚ
deriving Repr, DecidableEq

/-- `normalizar_pesos`: sums the weight column, raises `ValueError` when the
total is 0, logs a warning when the total is not within `abs_tol=0.03` of 1,
and writes `round(peso / suma_total, 6)` for every item. -/
def normalizar_pesos (pesos : List ℚ) : Except String ResultadoNorm :=
  let sumaTotal := pesos.sum
  if sumaTotal = 0 then
    .error "No se puede normalizar: la suma total de pesos es 0."
  else
    .ok { aviso := !(isClose sumaTotal 1 (3/100)),
          pesosNormalizados := pesos.map (fun w => pyRound6 (w / sumaTotal)) }

/-- Whether an `Except` value is the error case. -/
def esError {ε α : Type} (e : Except ε α) : Bool :=
  match e with
  | .error _ => true
  | .ok _ => false

theorem redondeaMitadPar_close (s : ℚ) : |(redondeaMitadPar s : ℚ) - s| ≤ 1/2 := by
  have hfl : (0:ℚ) ≤ s - ⌊s⌋ := by
    have := Int.floor_le s; linarith
  have hfl2 : s - ⌊s⌋ < 1 := by
    have := Int.lt_floor_add_one s; linarith
  have hlow : ∀ h : (⌊s⌋:ℚ) - s ≤ 0, |(⌊s⌋:ℚ) - s| = s - ⌊s⌋ := by
    intro h; rw [abs_of_nonpos h]; ring
  have hup : |((⌊s⌋:ℚ) + 1) - s| = 1 - (s - ⌊s⌋) := by
    rw [abs_of_nonneg (by linarith)]; ring
  unfold redondeaMitadPar
  split
  · rw [hlow (by linarith)]; linarith
  · split
    · push_cast
      rw [hup]; linarith
    · have heq : s - ⌊s⌋ = 1/2 := by linarith
      split
      · rw [hlow (by linarith)]; linarith
      · push_cast
        rw [hup]; linarith

theorem pyRound6_close (x : ℚ) : |pyRound6 x - x| ≤ 1/2000000 := by
  unfold pyRound6
  have hr := redondeaMitadPar_close (x * 1000000)
  have hx : (redondeaMitadPar (x * 1000000) : ℚ) / 1000000 - x =
      ((redondeaMitadPar (x * 1000000) : ℚ) - x * 1000000) / 1000000 := by ring
  rw [hx, abs_div]
  have h6 : |(1000000:ℚ)| = 1000000 := by norm_num
  rw [h6]
  linarith

theorem sum_pyRound6_close (l : List ℚ) :
    |(l.map pyRound6).sum - l.sum| ≤ l.length * (1/2000000) := by
  induction l with
  | nil => simp
  | cons a t ih =>
    simp only [List.map_cons, List.sum_cons, List.length_cons]
    have h1 := pyRound6_close a
    have habs : |pyRound6 a + (t.map pyRound6).sum - (a + t.sum)| ≤
        |pyRound6 a - a| + |(t.map pyRound6).sum - t.sum| := by
      have : pyRound6 a + (t.map pyRound6).sum - (a + t.sum) =
          (pyRound6 a - a) + ((t.map pyRound6).sum - t.sum) := by ring
      rw [this]; exact abs_add _ _
    push_cast
    linarith

theorem sum_map_div (l : List ℚ) (s : ℚ) :
    (l.map (fun w => w / s)).sum = l.sum / s := by
  induction l with
  | nil => simp
  | cons a t ih => simp [ih, add_div]

theorem normalizar_pesos_ok_aux (pesos : List ℚ) (h : pesos.sum ≠ 0) :
    normalizar_pesos pesos =
      .ok { aviso := !(isClose pesos.sum 1 (3/100)),
            pesosNormalizados := pesos.map (fun w => pyRound6 (w / pesos.sum)) } := by
  unfold normalizar_pesos
  simp [if_neg h]

/-- C6: `normalizar_pesos` raises an error exactly when the total of the input
weights is zero; for any non-zero total it succeeds, renormalizing every item to
`round(peso / suma, 6)`, with only a warning flag (never a failure) when the
pre-normalization total deviates from 1.0 beyond the `abs_tol = 0.03` tolerance. -/
theorem normalizar_pesos_falla_sii_suma_cero (pesos : List ℚ) :
    (esError (normalizar_pesos pesos) = true ↔ pesos.sum = 0) ∧
    (pesos.sum ≠ 0 →
      normalizar_pesos pesos =
        .ok { aviso := !(isClose pesos.sum 1 (3/100)),
              pesosNormalizados := pesos.map (fun w => pyRound6 (w / pesos.sum)) }) := by
  constructor
  · constructor
    · intro h
      by_contra hs
      unfold normalizar_pesos at h
      simp only [if_neg hs, esError] at h
      exact Bool.false_ne_true h
    · intro h
      unfold normalizar_pesos
      simp [if_pos h, esError]
  · exact normalizar_pesos_ok_aux pesos

theorem normalizar_pesos_falla_sii_suma_cero_testigo :
    (esError (normalizar_pesos [(1:ℚ), 1, 2]) = true ↔ ([(1:ℚ), 1, 2]).sum = 0) ∧
    (([(1:ℚ), 1, 2]).sum ≠ 0 →
      normalizar_pesos [(1:ℚ), 1, 2] =
        .ok { aviso := !(isClose ([(1:ℚ), 1, 2]).sum 1 (3/100)),
              pesosNormalizados :=
                [(1:ℚ), 1, 2].map (fun w => pyRound6 (w / ([(1:ℚ), 1, 2]).sum)) }) :=
  normalizar_pesos_falla_sii_suma_cero [1, 1, 2]

/-- C5 counterexample: the weight list `[1,1,1,1,1,1]` has positive total, each
weight normalizes to `round(1/6, 6) = 0.166667`, and the normalized weights sum
to `1.000002`, which deviates from 1.0 by `2e-6 > 1e-6`. -/
theorem normalizar_pesos_tolerancia_contraejemplo :
    (0:ℚ) < ([1, 1, 1, 1, 1, 1] : List ℚ).sum ∧
    normalizar_pesos [(1:ℚ), 1, 1, 1, 1, 1] =
      .ok { aviso := true,
            pesosNormalizados := [166667/1000000, 166667/1000000, 166667/1000000,
                                  166667/1000000, 166667/1000000, 166667/1000000] } ∧
    ¬ (|([(166667:ℚ)/1000000, 166667/1000000, 166667/1000000, 166667/1000000,
          166667/1000000, 166667/1000000]).sum - 1| ≤ 1/1000000) := by
  refine ⟨by norm_num, ?_, ?_⟩
  case refine_2 =>
    have hs : ([(166667:ℚ)/1000000, 166667/1000000, 166667/1000000, 166667/1000000,
        166667/1000000, 166667/1000000]).sum - 1 = 1/500000 := by norm_num
    rw [hs, abs_of_nonneg (by norm_num : (0:ℚ) ≤ 1/500000)]
    norm_num
  unfold normalizar_pesos
  rw [if_neg (by norm_num)]
  simp only [Except.ok.injEq, ResultadoNorm.mk.injEq]
  constructor
  · simp only [isClose, List.sum_cons, List.sum_nil]
    norm_num
  · simp only [List.map_cons, List.map_nil, List.sum_cons, List.sum_nil]
    norm_num [pyRound6_un_sexto]

/-- C5 amended: for every weight list with total strictly greater than zero, the
normalizer assigns each item `round(peso / suma, 6)`; because each item is
rounded to 6 decimals, the normalized total can deviate from 1.0 by up to half
an ulp per item, i.e. it lies within `n * 5e-7` of 1.0 (not within a fixed
`1e-6`); the scenario `[1,1,2] -> [0.25, 0.25, 0.5]` holds exactly. -/
theorem normalizar_pesos_correcto (pesos : List ℚ) (h : 0 < pesos.sum) :
    normalizar_pesos pesos =
      .ok { aviso := !(isClose pesos.sum 1 (3/100)),
            pesosNormalizados := pesos.map (fun w => pyRound6 (w / pesos.sum)) } ∧
    |(pesos.map (fun w => pyRound6 (w / pesos.sum))).sum - 1| ≤
      pesos.length * (1/2000000) ∧
    normalizar_pesos [(1:ℚ), 1, 2] =
      .ok { aviso := true, pesosNormalizados := [1/4, 1/4, 1/2] } := by
  refine ⟨normalizar_pesos_ok_aux pesos h.ne', ?_, ?_⟩
  · have hmap : pesos.map (fun w => pyRound6 (w / pesos.sum)) =
        (pesos.map (fun w => w / pesos.sum)).map pyRound6 := by
      rw [List.map_map]; rfl
    have hsum : (pesos.map (fun w => w / pesos.sum)).sum = 1 := by
      rw [sum_map_div, div_self h.ne']
    have hlen : (pesos.map (fun w => w / pesos.sum)).length = pesos.length :=
      List.length_map _ _
    have := sum_pyRound6_close (pesos.map (fun w => w / pesos.sum))
    rw [hsum, hlen] at this
    rw [hmap]
    exact this
  · unfold normalizar_pesos
    rw [if_neg (by norm_num)]
    simp only [Except.ok.injEq, ResultadoNorm.mk.injEq]
    constructor
    · simp only [isClose, List.sum_cons, List.sum_nil]
      norm_num
    · simp only [List.map_cons, List.map_nil, List.sum_cons, List.sum_nil]
      norm_num [pyRound6_un_cuarto, pyRound6_un_medio]

theorem normalizar_pesos_correcto_testigo :
    normalizar_pesos [(1:ℚ), 1, 2] =
      .ok { aviso := !(isClose ([(1:ℚ), 1, 2]).sum 1 (3/100)),
            pesosNormalizados :=
              [(1:ℚ), 1, 2].map (fun w => pyRound6 (w / ([(1:ℚ), 1, 2]).sum)) } ∧
    |(([(1:ℚ), 1, 2]).map (fun w => pyRound6 (w / ([(1:ℚ), 1, 2]).sum))).sum - 1| ≤
      ([(1:ℚ), 1, 2]).length * (1/2000000) ∧
    normalizar_pesos [(1:ℚ), 1, 2] =
      .ok { aviso := true, pesosNormalizados := [1/4, 1/4, 1/2] } :=
  normalizar_pesos_correcto [1, 1, 2] (by norm_num)

/-! ## Schema conformance enforcer (`asegurar_columnas`, lines 1756-1789) -/

/-- Physical column types used by the schemas (`pl.Utf8`, `pl.Categorical`,
`pl.Int8/16/32/64`, `pl.Float32/64`, `pl.Date`, `pl.Boolean`). -/
inductive PDtype where
  | utf8 | categorical
  | int8 | int16 | int32 | int64
  | float32 | float64
  | fecha | boolean
deriving Repr, DecidableEq

/-- A cell value: string, integer, float (exact rational), date, boolean or null. -/
inductive PValue where
  | str : String → PValue
  | intV : ℤ → PValue
  | floatV : ℚ → PValue
  | fechaV : Nat → Nat → Nat → PValue
  | boolV : Bool → PValue
  | nullV : PValue
deriving Repr, DecidableEq

/-- The type-derived default of the `if/elif` chain: `""` for `Utf8`, `0` for the
integer types, `0.0` for the float types, `date(1900, 1, 1)` for `Date`, `False`
for `Boolean`.  Any other dtype (notably `Categorical`) falls through the chain,
leaving `default_value = None`. -/
def valorPorTipo : PDtype → Option PValue
  | .utf8 => some (.str "")
  | .int8 => some (.intV 0)
  | .int16 => some (.intV 0)
  | .int32 => some (.intV 0)
  | .int64 => some (.intV 0)
  | .float32 => some (.floatV 0)
  | .float64 => some (.floatV 0)
  | .fecha => some (.fechaV 1900 1 1)
  | .boolean => some (.boolV false)
  | .categorical => none

structure Columna where
  nombre : String
  dtype : PDtype
  valores : List PValue
deriving Repr, DecidableEq

/-- A table: its row count and its ordered list of columns. -/
structure Tabla where
  altura : Nat
  columnas : List Columna
deriving Repr, DecidableEq

def buscarCol (cols : List Columna) (n : String) : Option Columna :=
  cols.find? (fun c => c.nombre = n)

/-- Best-effort cast of one cell to a target dtype; `none` is a failed cast.
Byte-width wrapping of the sized integer/float types is not distinguished
(no claim depends on it). -/
def castValue : PValue → PDtype → Option PValue
  | .nullV, _ => some .nullV
  | .str s, .utf8 => some (.str s)
  | .str s, .categorical => some (.str s)
  | .str _, _ => none
  | .intV n, .int8 => some (.intV n)
  | .intV n, .int16 => some (.intV n)
  | .intV n, .int32 => some (.intV n)
  | .intV n, .int64 => some (.intV n)
  | .intV n, .float32 => some (.floatV n)
  | .intV n, .float64 => some (.floatV n)
  | .intV n, .utf8 => some (.str (toString n))
  | .intV _, _ => none
  | .floatV q, .float32 => some (.floatV q)
  | .floatV q, .float64 => some (.floatV q)
  | .floatV q, .int8 => some (.intV ⌊q⌋)
  | .floatV q, .int16 => some (.intV ⌊q⌋)
  | .floatV q, .int32 => some (.intV ⌊q⌋)
  | .floatV q, .int64 => some (.intV ⌊q⌋)
  | .floatV _, _ => none
  | .fechaV a m d, .fecha => some (.fechaV a m d)
  | .fechaV _ _ _, _ => none
  | .boolV b, .boolean => some (.boolV b)
  | .boolV b, .int8 => some (.intV (if b then 1 else 0))
  | .boolV b, .int16 => some (.intV (if b then 1 else 0))
  | .boolV b, .int32 => some (.intV (if b then 1 else 0))
  | .boolV b, .int64 => some (.intV (if b then 1 else 0))
  | .boolV _, _ => none

/-- `pl.col(col).cast(dtype)` wrapped in try/except: on any failed cell the
column is left exactly as it was (logged as a warning in the source). -/
def castCol (c : Columna) (dt : PDtype) : Columna :=
  match c.valores.mapM (fun v => castValue v dt) with
  | some vs => ⟨c.nombre, dt, vs⟩
  | none => c

/-- The value used to fill a missing column: the caller-supplied default if any,
otherwise the type-derived default, otherwise the null literal. -/
def valorRelleno (vd : List (String × PValue)) (nombre : String) (dt : PDtype) : PValue :=
  match (vd.find? (fun p => p.1 = nombre)).map Prod.snd with
  | some v => v
  | none => (valorPorTipo dt).getD .nullV

/-- One iteration of the `for col, dtype in schema.items()` loop of
`asegurar_columnas`. -/
def pasoColumna (vd : List (String × PValue)) (acc : Tabla) (cd : String × PDtype) : Tabla :=
  match buscarCol acc.columnas cd.1 with
  | none =>
      ⟨acc.altura, acc.columnas ++
        [⟨cd.1, cd.2, List.replicate acc.altura (valorRelleno vd cd.1 cd.2)⟩]⟩
  | some c =>
      if c.dtype = cd.2 then acc
      else ⟨acc.altura,
        acc.columnas.map (fun c2 => if c2.nombre = cd.1 then castCol c2 cd.2 else c2)⟩

/-- `asegurar_columnas`: add/cast per schema entry, then select and reorder
exactly the schema's columns (all present by then). -/
def asegurar_columnas (df : Tabla) (schema : List (String × PDtype))
    (vd : List (String × PValue)) : Tabla :=
  let paso := schema.foldl (pasoColumna vd) df
  ⟨paso.altura, (schema.map Prod.fst).filterMap (fun n => buscarCol paso.columnas n)⟩

/-- The column the enforcer is expected to emit for one schema entry. -/
def columnaEsperada (df : Tabla) (vd : List (String × PValue))
    (cd : String × PDtype) : Columna :=
  match buscarCol df.columnas cd.1 with
  | some c => if c.dtype = cd.2 then c else castCol c cd.2
  | none => ⟨cd.1, cd.2, List.replicate df.altura (valorRelleno vd cd.1 cd.2)⟩

theorem castCol_nombre (c : Columna) (dt : PDtype) : (castCol c dt).nombre = c.nombre := by
  unfold castCol
  cases c.valores.mapM (fun v => castValue v dt) <;> rfl

theorem buscarCol_append_uno (l : List Columna) (c : Columna) (n : String) :
    buscarCol (l ++ [c]) n =
      match buscarCol l n with
      | some x => some x
      | none => if c.nombre = n then some c else none := by
  induction l with
  | nil =>
    unfold buscarCol
    simp only [List.nil_append, List.find?_nil]
    by_cases h : c.nombre = n
    · rw [List.find?_cons_of_pos _ (by simpa using h), if_pos h]
    · rw [List.find?_cons_of_neg _ (by simpa using h), if_neg h, List.find?_nil]
  | cons a t ih =>
    unfold buscarCol at *
    by_cases h : a.nombre = n
    · rw [List.cons_append, List.find?_cons_of_pos _ (by simpa using h),
        List.find?_cons_of_pos _ (by simpa using h)]
    · rw [List.cons_append, List.find?_cons_of_neg _ (by simpa using h),
        List.find?_cons_of_neg _ (by simpa using h)]
      exact ih

theorem buscarCol_nombre {cols : List Columna} {n : String} {c : Columna}
    (h : buscarCol cols n = some c) : c.nombre = n := by
  have := List.find?_some h
  simpa using this

theorem buscarCol_map_conservaNombre (cols : List Columna) (f : Columna → Columna)
    (n : String) (hf : ∀ c, (f c).nombre = c.nombre) :
    buscarCol (cols.map f) n = (buscarCol cols n).map f := by
  induction cols with
  | nil => rfl
  | cons a t ih =>
    unfold buscarCol at *
    by_cases h : a.nombre = n
    · rw [List.map_cons, List.find?_cons_of_pos _ (by simp [hf, h]),
        List.find?_cons_of_pos _ (by simpa using h)]
      rfl
    · rw [List.map_cons, List.find?_cons_of_neg _ (by simp [hf, h]),
        List.find?_cons_of_neg _ (by simpa using h)]
      exact ih

theorem pasoColumna_altura (vd : List (String × PValue)) (acc : Tabla)
    (cd : String × PDtype) : (pasoColumna vd acc cd).altura = acc.altura := by
  unfold pasoColumna
  cases buscarCol acc.columnas cd.1 with
  | none => rfl
  | some c =>
    dsimp only
    by_cases h : c.dtype = cd.2
    · rw [if_pos h]
    · rw [if_neg h]

theorem pasoColumna_buscar_otra (vd : List (String × PValue)) (acc : Tabla)
    (cd : String × PDtype) (n : String) (hn : n ≠ cd.1) :
    buscarCol (pasoColumna vd acc cd).columnas n = buscarCol acc.columnas n := by
  unfold pasoColumna
  cases hb : buscarCol acc.columnas cd.1 with
  | none =>
    dsimp only
    rw [buscarCol_append_uno]
    cases hfind : buscarCol acc.columnas n with
    | some x => rfl
    | none =>
      dsimp only
      rw [if_neg (fun h => hn (Eq.symm h))]
  | some c =>
    dsimp only
    by_cases h : c.dtype = cd.2
    · rw [if_pos h]
    · rw [if_neg h]
      rw [buscarCol_map_conservaNombre _ _ _ (fun c2 => by
        by_cases h2 : c2.nombre = cd.1
        · simp [h2, castCol_nombre]
        · simp [h2])]
      cases hfind : buscarCol acc.columnas n with
      | none => rfl
      | some c2 =>
        have hname := buscarCol_nombre hfind
        simp [hname, hn]

theorem pasoColumna_buscar_propia (vd : List (String × PValue)) (acc : Tabla)
    (cd : String × PDtype) :
    buscarCol (pasoColumna vd acc cd).columnas cd.1 = some (columnaEsperada acc vd cd) := by
  unfold pasoColumna columnaEsperada
  cases hb : buscarCol acc.columnas cd.1 with
  | none =>
    dsimp only
    rw [buscarCol_append_uno, hb]
    simp
  | some c =>
    dsimp only
    by_cases h : c.dtype = cd.2
    · rw [if_pos h, if_pos h, hb]
    · rw [if_neg h, if_neg h]
      dsimp only
      rw [buscarCol_map_conservaNombre _ _ _ (fun c2 => by
        by_cases h2 : c2.nombre = cd.1
        · simp [h2, castCol_nombre]
        · simp [h2])]
      rw [hb]
      have hname := buscarCol_nombre hb
      simp [hname]

theorem foldl_pasoColumna_altura (vd : List (String × PValue))
    (l : List (String × PDtype)) (acc : Tabla) :
    (l.foldl (pasoColumna vd) acc).altura = acc.altura := by
  induction l generalizing acc with
  | nil => rfl
  | cons cd t ih => rw [List.foldl_cons, ih, pasoColumna_altura]

theorem foldl_pasoColumna_buscar_otra (vd : List (String × PValue))
    (l : List (String × PDtype)) (acc : Tabla) (n : String)
    (hn : ∀ cd ∈ l, n ≠ cd.1) :
    buscarCol ((l.foldl (pasoColumna vd) acc)).columnas n = buscarCol acc.columnas n := by
  induction l generalizing acc with
  | nil => rfl
  | cons cd t ih =>
    rw [List.foldl_cons, ih _ (fun cd2 h2 => hn cd2 (List.mem_cons_of_mem _ h2)),
      pasoColumna_buscar_otra _ _ _ _ (hn cd (List.mem_cons_self _ _))]

theorem columnaEsperada_congr (df df2 : Tabla) (vd : List (String × PValue))
    (cd : String × PDtype)
    (hb : buscarCol df2.columnas cd.1 = buscarCol df.columnas cd.1)
    (ha : df2.altura = df.altura) :
    columnaEsperada df2 vd cd = columnaEsperada df vd cd := by
  unfold columnaEsperada
  rw [hb, ha]

theorem foldl_pasoColumna_buscar (vd : List (String × PValue))
    (l : List (String × PDtype)) (acc : Tabla)
    (hnd : (l.map Prod.fst).Nodup) (cd : String × PDtype) (hcd : cd ∈ l) :
    buscarCol ((l.foldl (pasoColumna vd) acc)).columnas cd.1 =
      some (columnaEsperada acc vd cd) := by
  induction l generalizing acc with
  | nil => cases hcd
  | cons cd0 t ih =>
    rw [List.map_cons, List.nodup_cons] at hnd
    rw [List.foldl_cons]
    rcases List.mem_cons.mp hcd with heq | hmem
    · subst heq
      rw [foldl_pasoColumna_buscar_otra _ _ _ _
        (fun cd2 h2 h3 => hnd.1 (by rw [h3]; exact List.mem_map_of_mem Prod.fst h2))]
      exact pasoColumna_buscar_propia vd acc cd
    · have hne : cd.1 ≠ cd0.1 := by
        intro h
        exact hnd.1 (h ▸ List.mem_map_of_mem Prod.fst hmem)
      rw [ih (pasoColumna vd acc cd0) hnd.2 hmem]
      congr 1
      exact columnaEsperada_congr acc (pasoColumna vd acc cd0) vd cd
        (pasoColumna_buscar_otra vd acc cd0 cd.1 hne)
        (pasoColumna_altura vd acc cd0)

theorem filterMap_buscar_eq_map (l : List (String × PDtype))
    (g : String → Option Columna) (e : String × PDtype → Columna)
    (h : ∀ cd ∈ l, g cd.1 = some (e cd)) :
    (l.map Prod.fst).filterMap g = l.map e := by
  induction l with
  | nil => rfl
  | cons cd t ih =>
    rw [List.map_cons, List.filterMap_cons, h cd (List.mem_cons_self _ _),
      List.map_cons, ih (fun cd2 h2 => h cd2 (List.mem_cons_of_mem _ h2))]

theorem columnaEsperada_nombre (df : Tabla) (vd : List (String × PValue))
    (cd : String × PDtype) : (columnaEsperada df vd cd).nombre = cd.1 := by
  unfold columnaEsperada
  cases hb : buscarCol df.columnas cd.1 with
  | none => rfl
  | some c =>
    have hnm := buscarCol_nombre hb
    dsimp only
    by_cases h : c.dtype = cd.2
    · rw [if_pos h]; exact hnm
    · rw [if_neg h, castCol_nombre]; exact hnm

/-- C7 counterexample: a schema column of dtype `Categorical` absent from the
input is added, but filled with nulls — not with any of the claim's listed
type-derived defaults (empty string, zero, 0.0, 1900-01-01, false). -/
theorem asegurar_columnas_categorical_contraejemplo :
    (asegurar_columnas ⟨1, []⟩ [("Segmento", PDtype.categorical)] []).columnas =
      [⟨"Segmento", PDtype.categorical, [PValue.nullV]⟩] ∧
    PValue.nullV ≠ PValue.str "" ∧ PValue.nullV ≠ PValue.intV 0 ∧
    PValue.nullV ≠ PValue.floatV 0 ∧ PValue.nullV ≠ PValue.fechaV 1900 1 1 ∧
    PValue.nullV ≠ PValue.boolV false := by
  refine ⟨rfl, ?_, ?_, ?_, ?_, ?_⟩ <;> intro h <;> cases h

/-- C7 amended: for every input table and target schema (with distinct column
names), the output holds exactly the schema's columns in schema order; a column
present in the schema but absent from the input is added filled with the
caller-supplied default if given, else the type-derived default (empty string
for text, zero for integer types, 0.0 for float types, date 1900-01-01 for
dates, false for booleans — while a dtype outside that chain, such as
categorical, is filled with nulls); a column present in both is cast when its
dtype mismatches (left as-is if the cast fails); input columns not named in the
schema are silently dropped. -/
theorem asegurar_columnas_caracterizacion (df : Tabla)
    (schema : List (String × PDtype)) (vd : List (String × PValue))
    (hnd : (schema.map Prod.fst).Nodup) :
    (asegurar_columnas df schema vd).columnas = schema.map (columnaEsperada df vd) ∧
    ((asegurar_columnas df schema vd).columnas).map (fun c => c.nombre) =
      schema.map Prod.fst := by
  have hmain : (asegurar_columnas df schema vd).columnas =
      schema.map (columnaEsperada df vd) := by
    unfold asegurar_columnas
    exact filterMap_buscar_eq_map schema _ _
      (fun cd hcd => foldl_pasoColumna_buscar vd schema df hnd cd hcd)
  refine ⟨hmain, ?_⟩
  rw [hmain, List.map_map]
  exact List.map_congr_left (fun cd _ => columnaEsperada_nombre df vd cd)

theorem asegurar_columnas_caracterizacion_testigo :
    (asegurar_columnas ⟨2, [⟨"Extra", PDtype.utf8, [PValue.str "x", PValue.str "y"]⟩]⟩
        [("ID_Cliente", PDtype.utf8), ("Activo", PDtype.boolean)] []).columnas =
      [("ID_Cliente", PDtype.utf8), ("Activo", PDtype.boolean)].map
        (columnaEsperada
          ⟨2, [⟨"Extra", PDtype.utf8, [PValue.str "x", PValue.str "y"]⟩]⟩ []) ∧
    ((asegurar_columnas ⟨2, [⟨"Extra", PDtype.utf8, [PValue.str "x", PValue.str "y"]⟩]⟩
        [("ID_Cliente", PDtype.utf8), ("Activo", PDtype.boolean)] []).columnas).map
      (fun c => c.nombre) =
      [("ID_Cliente", PDtype.utf8), ("Activo", PDtype.boolean)].map Prod.fst :=
  asegurar_columnas_caracterizacion
    ⟨2, [⟨"Extra", PDtype.utf8, [PValue.str "x", PValue.str "y"]⟩]⟩
    [("ID_Cliente", PDtype.utf8), ("Activo", PDtype.boolean)] []
    (by simp)

/-! ## Temporal/holiday seasonality
(`generar_dim_tiempo`, lines 1866-1888; `IMPACTO_FERIADO`, lines 1289-1294) -/

/-- `FACTOR_ESTACIONALIDAD_MENSUAL` (lines 1296-1309).  `pl.replace` leaves an
unmatched key as its own value, hence the default arm. -/
def FACTOR_ESTACIONALIDAD_MENSUAL (m : Nat) : ℚ :=
  match m with
  | 1 => 19/20
  | 2 => 9/10
  | 3 => 1
  | 4 => 21/20
  | 5 => 1
  | 6 => 23/20
  | 7 => 5/4
  | 8 => 6/5
  | 9 => 19/20
  | 10 => 1
  | 11 => 11/10
  | 12 => 7/5
  | _ => (m : ℚ)

/-- Multiply entry `i` of the array in place (`arr[i] *= f`); out-of-range
indices leave the array unchanged, matching the guards in the source. -/
def mulAt (arr : List ℚ) (i : Nat) (f : ℚ) : List ℚ :=
  arr.set i (arr.getD i 1 * f)

/-- `if i > 0 and not feriados_eager[i - 1]: impacto[i - 1] *= dia_antes`. -/
def pasoAntes (feriados : List Bool) (arr : List ℚ) (i : Nat) : List ℚ :=
  if 0 < i ∧ feriados.getD (i-1) false = false then mulAt arr (i-1) (11/10) else arr

/-- `if i < len - 1 and not feriados_eager[i + 1]: impacto[i + 1] *= dia_despues`. -/
def pasoDespues (feriados : List Bool) (arr : List ℚ) (i : Nat) : List ℚ :=
  if i + 1 < feriados.length ∧ feriados.getD (i+1) false = false
    then mulAt arr (i+1) (9/10) else arr

/-- One iteration of the `for i, is_f in enumerate(feriados_eager)` loop:
`IMPACTO_FERIADO = {dia_antes: 1.1, dia_feriado: 0.6, dia_despues: 0.9}`. -/
def pasoFeriado (feriados : List Bool) (arr : List ℚ) (i : Nat) : List ℚ :=
  if feriados.getD i false then
    pasoDespues feriados (pasoAntes feriados (mulAt arr i (3/5)) i) i
  else arr

/-- `impacto_feriado_arr`: start from all ones and apply the holiday loop. -/
def impactoFeriadoArr (feriados : List Bool) : List ℚ :=
  (List.range feriados.length).foldl (pasoFeriado feriados)
    (List.replicate feriados.length 1)

/-- The factor iteration `j` of the loop contributes to entry `i`. -/
def contribFeriado (feriados : List Bool) (j i : Nat) : ℚ :=
  (if feriados.getD j false ∧ i = j then 3/5 else 1) *
  (if feriados.getD j false ∧ (0 < j ∧ feriados.getD (j-1) false = false) ∧ i = j - 1
    then 11/10 else 1) *
  (if feriados.getD j false ∧
      (j + 1 < feriados.length ∧ feriados.getD (j+1) false = false) ∧ i = j + 1
    then 9/10 else 1)

/-- The per-day holiday multiplier the loop actually computes. -/
def multiplicadorCodigo (feriados : List Bool) (i : Nat) : ℚ :=
  (if feriados.getD i false then 3/5 else 1) *
  (if feriados.getD i false = false ∧ i + 1 < feriados.length ∧ feriados.getD (i+1) false
    then 11/10 else 1) *
  (if feriados.getD i false = false ∧ 0 < i ∧ feriados.getD (i-1) false
    then 9/10 else 1)

/-- The per-day holiday multiplier as the claim words it. -/
def multiplicadorReclamado (feriados : List Bool) (i : Nat) : ℚ :=
  (if feriados.getD i false then 3/5 else 1) *
  (if i + 1 < feriados.length ∧ feriados.getD (i+1) false then 11/10 else 1) *
  (if 0 < i ∧ feriados.getD (i-1) false then 9/10 else 1)

/-- No two holidays on consecutive days (true of the holiday calendar in the
simulated range). -/
def sinFeriadosAdyacentes (feriados : List Bool) : Prop :=
  ∀ j, j < feriados.length →
    ¬(feriados.getD j false = true ∧ feriados.getD (j+1) false = true)

/-- The composite per-day factor `Factor_Estacionalidad_Mensual * Factor_Impacto_Feriado`. -/
def factorEstacionalidadGeneral (meses : List Nat) (feriados : List Bool) : List ℚ :=
  List.zipWith (fun m f => FACTOR_ESTACIONALIDAD_MENSUAL m * f)
    meses (impactoFeriadoArr feriados)

theorem getD_set (l : List ℚ) (k i : Nat) (a : ℚ) :
    (l.set k a).getD i 1 = if k = i ∧ k < l.length then a else l.getD i 1 := by
  induction l generalizing k i with
  | nil => simp
  | cons x t ih =>
    cases k with
    | zero =>
      cases i with
      | zero => simp
      | succ i2 => simp
    | succ k2 =>
      cases i with
      | zero => simp
      | succ i2 =>
        simp only [List.set, List.getD_cons_succ, List.length_cons]
        rw [ih]
        by_cases h : k2 = i2 ∧ k2 < t.length
        · rw [if_pos h, if_pos (by omega)]
        · rw [if_neg h, if_neg (by omega)]

theorem getD_mulAt (arr : List ℚ) (k i : Nat) (f : ℚ) :
    (mulAt arr k f).getD i 1 =
      if k = i ∧ k < arr.length then arr.getD i 1 * f else arr.getD i 1 := by
  unfold mulAt
  rw [getD_set]
  by_cases h : k = i ∧ k < arr.length
  · rw [if_pos h, if_pos h, h.1]
  · rw [if_neg h, if_neg h]

theorem length_mulAt (arr : List ℚ) (k : Nat) (f : ℚ) :
    (mulAt arr k f).length = arr.length := by
  unfold mulAt
  exact List.length_set arr k _

theorem length_pasoAntes (feriados : List Bool) (arr : List ℚ) (i : Nat) :
    (pasoAntes feriados arr i).length = arr.length := by
  unfold pasoAntes
  split <;> simp [length_mulAt]

theorem length_pasoDespues (feriados : List Bool) (arr : List ℚ) (i : Nat) :
    (pasoDespues feriados arr i).length = arr.length := by
  unfold pasoDespues
  split <;> simp [length_mulAt]

theorem length_pasoFeriado (feriados : List Bool) (arr : List ℚ) (i : Nat) :
    (pasoFeriado feriados arr i).length = arr.length := by
  unfold pasoFeriado
  split
  · rw [length_pasoDespues, length_pasoAntes, length_mulAt]
  · rfl

theorem getD_pasoAntes (feriados : List Bool) (arr : List ℚ) (j i : Nat) :
    (pasoAntes feriados arr j).getD i 1 =
      if (0 < j ∧ feriados.getD (j-1) false = false) ∧ j - 1 = i ∧ j - 1 < arr.length
      then arr.getD i 1 * (11/10) else arr.getD i 1 := by
  unfold pasoAntes
  by_cases hg : 0 < j ∧ feriados.getD (j-1) false = false
  · rw [if_pos hg, getD_mulAt]
    by_cases h2 : j - 1 = i ∧ j - 1 < arr.length
    · rw [if_pos h2, if_pos ⟨hg, h2⟩]
    · rw [if_neg h2, if_neg (fun h => h2 h.2)]
  · rw [if_neg hg, if_neg (fun h => hg h.1)]

theorem getD_pasoDespues (feriados : List Bool) (arr : List ℚ) (j i : Nat) :
    (pasoDespues feriados arr j).getD i 1 =
      if (j + 1 < feriados.length ∧ feriados.getD (j+1) false = false) ∧
          j + 1 = i ∧ j + 1 < arr.length
      then arr.getD i 1 * (9/10) else arr.getD i 1 := by
  unfold pasoDespues
  by_cases hg : j + 1 < feriados.length ∧ feriados.getD (j+1) false = false
  · rw [if_pos hg, getD_mulAt]
    by_cases h2 : j + 1 = i ∧ j + 1 < arr.length
    · rw [if_pos h2, if_pos ⟨hg, h2⟩]
    · rw [if_neg h2, if_neg (fun h => h2 h.2)]
  · rw [if_neg hg, if_neg (fun h => hg h.1)]

theorem getD_pasoFeriado (feriados : List Bool) (arr : List ℚ)
    (hlen : arr.length = feriados.length) (j i : Nat) (hi : i < feriados.length) :
    (pasoFeriado feriados arr j).getD i 1 =
      arr.getD i 1 * contribFeriado feriados j i := by
  unfold pasoFeriado contribFeriado
  by_cases hj : feriados.getD j false = true
  · have hjn : j < feriados.length := by
      by_contra hge
      rw [List.getD_eq_default _ _ (by omega)] at hj
      exact Bool.false_ne_true hj
    rw [if_pos hj, getD_pasoDespues, length_pasoAntes, length_mulAt, getD_pasoAntes,
      length_mulAt, getD_mulAt, hlen]
    by_cases hij : j = i
    · subst hij
      have hD : ¬((j + 1 < feriados.length ∧ feriados.getD (j+1) false = false) ∧
          j + 1 = j ∧ j + 1 < feriados.length) := by rintro ⟨-, h, -⟩; omega
      have hA : ¬((0 < j ∧ feriados.getD (j-1) false = false) ∧
          j - 1 = j ∧ j - 1 < feriados.length) := by rintro ⟨⟨h0, -⟩, h1, -⟩; omega
      have hc2 : ¬(feriados.getD j false = true ∧
          (0 < j ∧ feriados.getD (j-1) false = false) ∧ j = j - 1) := by
        rintro ⟨-, ⟨h0, -⟩, h1⟩; omega
      have hc3 : ¬(feriados.getD j false = true ∧
          (j + 1 < feriados.length ∧ feriados.getD (j+1) false = false) ∧ j = j + 1) := by
        rintro ⟨-, -, h⟩; omega
      rw [if_neg hD, if_neg hA, if_pos ⟨rfl, hjn⟩, if_pos ⟨hj, rfl⟩, if_neg hc2,
        if_neg hc3]
      ring
    · have hM : ¬(j = i ∧ j < feriados.length) := fun h => hij h.1
      have hc1 : ¬(feriados.getD j false = true ∧ i = j) := fun h => hij h.2.symm
      by_cases hant : (0 < j ∧ feriados.getD (j-1) false = false) ∧ j - 1 = i
      · obtain ⟨⟨hj0, hjprev⟩, hji⟩ := hant
        have hD : ¬((j + 1 < feriados.length ∧ feriados.getD (j+1) false = false) ∧
            j + 1 = i ∧ j + 1 < feriados.length) := by rintro ⟨-, h, -⟩; omega
        have hA : (0 < j ∧ feriados.getD (j-1) false = false) ∧
            j - 1 = i ∧ j - 1 < feriados.length := ⟨⟨hj0, hjprev⟩, hji, by omega⟩
        have hc2 : feriados.getD j false = true ∧
            (0 < j ∧ feriados.getD (j-1) false = false) ∧ i = j - 1 :=
          ⟨hj, ⟨hj0, hjprev⟩, hji.symm⟩
        have hc3 : ¬(feriados.getD j false = true ∧
            (j + 1 < feriados.length ∧ feriados.getD (j+1) false = false) ∧
            i = j + 1) := by rintro ⟨-, -, h⟩; omega
        rw [if_neg hD, if_pos hA, if_neg hM, if_neg hc1, if_pos hc2, if_neg hc3]
        ring
      · by_cases hdes : (j + 1 < feriados.length ∧ feriados.getD (j+1) false = false) ∧
            j + 1 = i
        · obtain ⟨⟨hd1, hd2⟩, hdi⟩ := hdes
          have hD : (j + 1 < feriados.length ∧ feriados.getD (j+1) false = false) ∧
              j + 1 = i ∧ j + 1 < feriados.length := ⟨⟨hd1, hd2⟩, hdi, hd1⟩
          have hA : ¬((0 < j ∧ feriados.getD (j-1) false = false) ∧
              j - 1 = i ∧ j - 1 < feriados.length) := fun h => hant ⟨h.1, h.2.1⟩
          have hc2 : ¬(feriados.getD j false = true ∧
              (0 < j ∧ feriados.getD (j-1) false = false) ∧ i = j - 1) := by
            rintro ⟨-, hg, h⟩; exact hant ⟨hg, h.symm⟩
          have hc3 : feriados.getD j false = true ∧
              (j + 1 < feriados.length ∧ feriados.getD (j+1) false = false) ∧
              i = j + 1 := ⟨hj, ⟨hd1, hd2⟩, hdi.symm⟩
          rw [if_pos hD, if_neg hA, if_neg hM, if_neg hc1, if_neg hc2, if_pos hc3]
          ring
        · have hD : ¬((j + 1 < feriados.length ∧ feriados.getD (j+1) false = false) ∧
              j + 1 = i ∧ j + 1 < feriados.length) := fun h => hdes ⟨h.1, h.2.1⟩
          have hA : ¬((0 < j ∧ feriados.getD (j-1) false = false) ∧
              j - 1 = i ∧ j - 1 < feriados.length) := fun h => hant ⟨h.1, h.2.1⟩
          have hc2 : ¬(feriados.getD j false = true ∧
              (0 < j ∧ feriados.getD (j-1) false = false) ∧ i = j - 1) := by
            rintro ⟨-, hg, h⟩; exact hant ⟨hg, h.symm⟩
          have hc3 : ¬(feriados.getD j false = true ∧
              (j + 1 < feriados.length ∧ feriados.getD (j+1) false = false) ∧
              i = j + 1) := by rintro ⟨-, hg, h⟩; exact hdes ⟨hg, h.symm⟩
          rw [if_neg hD, if_neg hA, if_neg hM, if_neg hc1, if_neg hc2, if_neg hc3]
          ring
  · rw [if_neg hj]
    rw [if_neg (fun h => hj h.1), if_neg (fun h => hj h.1), if_neg (fun h => hj h.1)]
    ring

theorem length_foldl_pasoFeriado (feriados : List Bool) (js : List Nat) (arr : List ℚ) :
    (js.foldl (pasoFeriado feriados) arr).length = arr.length := by
  induction js generalizing arr with
  | nil => rfl
  | cons j t ih => rw [List.foldl_cons, ih, length_pasoFeriado]

theorem getD_foldl_pasoFeriado (feriados : List Bool) (i : Nat)
    (hi : i < feriados.length) (k : Nat) :
    (((List.range k).foldl (pasoFeriado feriados)
        (List.replicate feriados.length 1))).getD i 1 =
      ((List.range k).map (fun j => contribFeriado feriados j i)).prod := by
  induction k with
  | zero => simp
  | succ k ih =>
    rw [List.range_succ, List.foldl_append, List.map_append, List.prod_append,
      List.foldl_cons, List.foldl_nil, List.map_cons, List.map_nil, List.prod_cons,
      List.prod_nil,
      getD_pasoFeriado feriados _ (by rw [length_foldl_pasoFeriado,
        List.length_replicate]) k i hi, ih, mul_one]

theorem prod_range_unico (n t : Nat) (f : Nat → ℚ) (h : ∀ j, j ≠ t → f j = 1) :
    ((List.range n).map f).prod = if t < n then f t else 1 := by
  induction n with
  | zero => rw [if_neg (by omega)]; rfl
  | succ n ih =>
    rw [List.range_succ, List.map_append, List.prod_append, List.map_cons,
      List.map_nil, List.prod_cons, List.prod_nil, mul_one, ih]
    by_cases hn : t = n
    · subst hn
      rw [if_neg (lt_irrefl t), if_pos (Nat.lt_succ_self t), one_mul]
    · rw [h n (fun hh => hn hh.symm)]
      by_cases ht : t < n
      · rw [if_pos ht, if_pos (by omega), mul_one]
      · rw [if_neg ht, if_neg (by omega), mul_one]

theorem prod_map_mul_q (l : List Nat) (f g : Nat → ℚ) :
    (l.map (fun x => f x * g x)).prod = (l.map f).prod * (l.map g).prod := by
  induction l with
  | nil => simp
  | cons a t ih =>
    simp only [List.map_cons, List.prod_cons, ih]
    ring

theorem parteAntesNoFeriado (feriados : List Bool) (i : Nat)
    (hcurF : feriados.getD i false = false) :
    (if i + 1 < feriados.length
      then (if feriados.getD (i+1) false = true ∧
          (0 < i + 1 ∧ feriados.getD (i+1-1) false = false) ∧ i = i + 1 - 1
        then (11:ℚ)/10 else 1)
      else 1) =
    (if feriados.getD i false = false ∧ i + 1 < feriados.length ∧
        feriados.getD (i+1) false = true
      then (11:ℚ)/10 else 1) := by
  by_cases hnext : i + 1 < feriados.length
  · rw [if_pos hnext]
    by_cases hvn : feriados.getD (i+1) false = true
    · rw [if_pos ⟨hvn, ⟨Nat.succ_pos i, by rw [Nat.add_sub_cancel]; exact hcurF⟩,
        by omega⟩, if_pos ⟨hcurF, hnext, hvn⟩]
    · rw [if_neg (fun h => hvn h.1), if_neg (fun h => hvn h.2.2)]
  · rw [if_neg hnext, if_neg (by rintro ⟨-, h, -⟩; exact hnext h)]

theorem parteDespuesNoFeriado (feriados : List Bool) (i : Nat)
    (hi : i < feriados.length) (hcurF : feriados.getD i false = false) :
    (if feriados.getD (i-1) false = true ∧
        (i - 1 + 1 < feriados.length ∧ feriados.getD (i-1+1) false = false) ∧
        i = i - 1 + 1
      then (9:ℚ)/10 else 1) =
    (if feriados.getD i false = false ∧ 0 < i ∧ feriados.getD (i-1) false = true
      then (9:ℚ)/10 else 1) := by
  by_cases hzero : 0 < i
  · have hii : i - 1 + 1 = i := by omega
    by_cases hprev : feriados.getD (i-1) false = true
    · rw [if_pos ⟨hprev, ⟨by omega, by rw [hii]; exact hcurF⟩, hii.symm⟩,
        if_pos ⟨hcurF, hzero, hprev⟩]
    · rw [if_neg (fun h => hprev h.1), if_neg (fun h => hprev h.2.2)]
  · have hi0 : i = 0 := by omega
    subst hi0
    rw [if_neg (by rintro ⟨-, -, h⟩; omega), if_neg (by rintro ⟨-, h, -⟩; omega)]

/-- Characterization of the holiday-impact loop: entry `i` of the resulting
array is exactly the multiplier dictated by `IMPACTO_FERIADO` and the
neighboring holiday flags, with guarded (never out-of-range) neighbor access. -/
theorem impactoFeriadoArr_caracterizacion (feriados : List Bool) (i : Nat)
    (hi : i < feriados.length) :
    (impactoFeriadoArr feriados).getD i 1 = multiplicadorCodigo feriados i := by
  unfold impactoFeriadoArr multiplicadorCodigo
  rw [getD_foldl_pasoFeriado feriados i hi]
  have hsplit : ∀ j, contribFeriado feriados j i =
      (fun j => if feriados.getD j false = true ∧ i = j then (3:ℚ)/5 else 1) j *
      ((fun j => if feriados.getD j false = true ∧
          (0 < j ∧ feriados.getD (j-1) false = false) ∧ i = j - 1
          then (11:ℚ)/10 else 1) j *
       (fun j => if feriados.getD j false = true ∧
          (j + 1 < feriados.length ∧ feriados.getD (j+1) false = false) ∧ i = j + 1
          then (9:ℚ)/10 else 1) j) := by
    intro j
    unfold contribFeriado
    ring
  rw [List.map_congr_left (fun j _ => hsplit j), prod_map_mul_q, prod_map_mul_q]
  rw [prod_range_unico feriados.length i _ (fun j hji => by
    rw [if_neg (fun h => hji (h.2.symm))])]
  rw [prod_range_unico feriados.length (i+1) _ (fun j hji => by
    rw [if_neg (by rintro ⟨-, ⟨h0, -⟩, h1⟩; omega)])]
  rw [prod_range_unico feriados.length (i-1) _ (fun j hji => by
    rw [if_neg (by rintro ⟨-, -, h1⟩; omega)])]
  rw [if_pos hi, if_pos (Nat.lt_of_le_of_lt (Nat.sub_le i 1) hi)]
  by_cases hcur : feriados.getD i false = true
  · rw [if_pos hcur, if_pos ⟨hcur, rfl⟩]
    have h2 : ¬(feriados.getD i false = false ∧ i + 1 < feriados.length ∧
        feriados.getD (i+1) false = true) := by rintro ⟨h, -⟩; rw [hcur] at h; cases h
    have h3 : ¬(feriados.getD i false = false ∧ 0 < i ∧
        feriados.getD (i-1) false = true) := by rintro ⟨h, -⟩; rw [hcur] at h; cases h
    rw [if_neg h2, if_neg h3]
    have hC : ¬(feriados.getD (i-1) false = true ∧
        (i - 1 + 1 < feriados.length ∧ feriados.getD (i-1+1) false = false) ∧
        i = i - 1 + 1) := by
      rintro ⟨-, ⟨-, h⟩, hii⟩
      rw [← hii, hcur] at h
      cases h
    rw [if_neg hC]
    by_cases hnext : i + 1 < feriados.length
    · rw [if_pos hnext]
      have hB : ¬(feriados.getD (i+1) false = true ∧
          (0 < i + 1 ∧ feriados.getD (i+1-1) false = false) ∧ i = i + 1 - 1) := by
        rintro ⟨-, ⟨-, h⟩, -⟩
        rw [Nat.add_sub_cancel, hcur] at h
        cases h
      rw [if_neg hB]
      ring
    · rw [if_neg hnext]
      ring
  · have hcurF : feriados.getD i false = false := by
      cases h : feriados.getD i false
      · rfl
      · exact absurd h hcur
    rw [if_neg hcur, if_neg (fun h => hcur h.1)]
    rw [parteAntesNoFeriado feriados i hcurF,
      parteDespuesNoFeriado feriados i hi hcurF]
    ring

theorem codigo_eq_reclamado (feriados : List Bool)
    (hady : sinFeriadosAdyacentes feriados) (i : Nat) (hi : i < feriados.length) :
    multiplicadorCodigo feriados i = multiplicadorReclamado feriados i := by
  unfold multiplicadorCodigo multiplicadorReclamado
  by_cases hcur : feriados.getD i false = true
  · rw [if_pos hcur]
    have hnext : ¬(i + 1 < feriados.length ∧ feriados.getD (i+1) false = true) := by
      rintro ⟨h1, h2⟩
      exact hady i hi ⟨hcur, h2⟩
    have hprev : ¬(0 < i ∧ feriados.getD (i-1) false = true) := by
      rintro ⟨h1, h2⟩
      refine hady (i-1) (by omega) ⟨h2, ?_⟩
      rw [show i - 1 + 1 = i from by omega]
      exact hcur
    rw [if_neg (by rintro ⟨h, -⟩; rw [hcur] at h; cases h),
      if_neg (by rintro ⟨h, -⟩; rw [hcur] at h; cases h),
      if_neg hnext, if_neg hprev]
  · have hcurF : feriados.getD i false = false := by
      cases h : feriados.getD i false
      · rfl
      · exact absurd h hcur
    rw [if_neg hcur]
    by_cases h2 : i + 1 < feriados.length ∧ feriados.getD (i+1) false = true
    · rw [if_pos ⟨hcurF, h2.1, h2.2⟩, if_pos h2]
      by_cases h3 : 0 < i ∧ feriados.getD (i-1) false = true
      · rw [if_pos ⟨hcurF, h3.1, h3.2⟩, if_pos h3]
      · rw [if_neg (fun h => h3 ⟨h.2.1, h.2.2⟩), if_neg h3]
    · rw [if_neg (fun h => h2 ⟨h.2.1, h.2.2⟩), if_neg h2]
      by_cases h3 : 0 < i ∧ feriados.getD (i-1) false = true
      · rw [if_pos ⟨hcurF, h3.1, h3.2⟩, if_pos h3]
      · rw [if_neg (fun h => h3 ⟨h.2.1, h.2.2⟩), if_neg h3]

theorem longitud_impactoFeriadoArr (feriados : List Bool) :
    (impactoFeriadoArr feriados).length = feriados.length := by
  unfold impactoFeriadoArr
  rw [length_foldl_pasoFeriado, List.length_replicate]

theorem getD_zipWith_factor (ms : List Nat) (fs : List ℚ) (i : Nat)
    (h1 : i < ms.length) (h2 : i < fs.length) :
    (List.zipWith (fun m f => FACTOR_ESTACIONALIDAD_MENSUAL m * f) ms fs).getD i 1 =
      FACTOR_ESTACIONALIDAD_MENSUAL (ms.getD i 0) * fs.getD i 1 := by
  induction ms generalizing fs i with
  | nil => simp at h1
  | cons m t ih =>
    cases fs with
    | nil => simp at h2
    | cons f tf =>
      cases i with
      | zero => rfl
      | succ j =>
        simp only [List.zipWith_cons_cons, List.getD_cons_succ]
        exact ih tf j (by simpa using h1) (by simpa using h2)

/-- C8: for every day `i` of a calendar range whose holiday flags never mark two
consecutive days (true of the project range 2021-2025), the composite
seasonality factor equals the month-level base factor of the day times the
holiday-adjacency multiplier: 0.6 on a holiday, 1.1 on the day immediately
before a holiday, 0.9 on the day immediately after, 1.0 elsewhere, the two
adjacency factors stacking multiplicatively for a day between two holidays;
the first and last day of the range only consult in-range neighbors. -/
theorem estacionalidad_compuesta (meses : List Nat) (feriados : List Bool)
    (hlen : meses.length = feriados.length) (hady : sinFeriadosAdyacentes feriados)
    (i : Nat) (hi : i < feriados.length) :
    (factorEstacionalidadGeneral meses feriados).getD i 1 =
      FACTOR_ESTACIONALIDAD_MENSUAL (meses.getD i 0) *
        multiplicadorReclamado feriados i := by
  unfold factorEstacionalidadGeneral
  rw [getD_zipWith_factor meses (impactoFeriadoArr feriados) i (by omega)
    (by rw [longitud_impactoFeriadoArr]; exact hi)]
  rw [impactoFeriadoArr_caracterizacion feriados i hi,
    codigo_eq_reclamado feriados hady i hi]

/-! The concrete project calendar: 2021-01-01 .. 2025-12-31 with the
`FERIADOS_RD` holiday dictionary. -/

def esBisiesto (a : Nat) : Bool := decide ((a % 4 = 0 ∧ a % 100 ≠ 0) ∨ a % 400 = 0)

def diasMes (a m : Nat) : Nat :=
  match m with
  | 1 => 31
  | 2 => if esBisiesto a then 29 else 28
  | 3 => 31
  | 4 => 30
  | 5 => 31
  | 6 => 30
  | 7 => 31
  | 8 => 31
  | 9 => 30
  | 10 => 31
  | 11 => 30
  | 12 => 31
  | _ => 0

def fechasAno (a : Nat) : List (Nat × Nat × Nat) :=
  ((List.range 12).map (fun mi =>
    (List.range (diasMes a (mi+1))).map (fun di => (a, mi+1, di+1)))).flatten

/-- `pl.date_range(FECHA_INICIO_PROYECTO, FECHA_FIN_PROYECTO)`: every day of
2021-2025. -/
def calendarioProyecto : List (Nat × Nat × Nat) :=
  ((List.range 5).map (fun k => fechasAno (2021 + k))).flatten

/-- The keys of the `FERIADOS_RD` dictionary (lines 1208-1286). -/
def FERIADOS_RD : List (Nat × Nat × Nat) :=
  [(2021,1,1),(2021,1,4),(2021,1,21),(2021,1,25),(2021,2,27),(2021,4,2),
   (2021,5,1),(2021,6,3),(2021,8,16),(2021,9,24),(2021,11,6),(2021,12,25),
   (2022,1,1),(2022,1,10),(2022,1,21),(2022,1,24),(2022,2,27),(2022,4,15),
   (2022,5,1),(2022,6,16),(2022,8,16),(2022,9,24),(2022,11,6),(2022,12,25),
   (2023,1,1),(2023,1,6),(2023,1,21),(2023,1,26),(2023,2,27),(2023,4,7),
   (2023,5,1),(2023,6,8),(2023,8,16),(2023,9,24),(2023,11,6),(2023,12,25),
   (2024,1,1),(2024,1,6),(2024,1,21),(2024,1,26),(2024,2,27),(2024,3,29),
   (2024,5,1),(2024,5,30),(2024,8,16),(2024,9,24),(2024,11,6),(2024,12,25),
   (2025,1,1),(2025,1,6),(2025,1,21),(2025,1,26),(2025,2,27),(2025,4,18),
   (2025,5,1),(2025,6,19),(2025,8,16),(2025,9,24),(2025,11,6),(2025,12,25),
   (2026,1,1),(2026,1,6),(2026,1,21),(2026,1,26),(2026,2,27),(2026,4,3),
   (2026,5,1),(2026,6,4),(2026,8,16),(2026,9,24),(2026,11,6),(2026,12,25)]

/-- The `EsFeriado` column over the project range. -/
def flagsFeriado : List Bool :=
  calendarioProyecto.map (fun f => decide (f ∈ FERIADOS_RD))

/-- The `Mes` column over the project range. -/
def mesesProyecto : List Nat := calendarioProyecto.map (fun f => f.2.1)

/-- Single-pass check that no two consecutive flags are both set. -/
def chequeAdyacentes : List Bool → Bool
  | [] => true
  | [_] => true
  | a :: b :: t => (!(a && b)) && chequeAdyacentes (b :: t)

theorem chequeAdyacentes_correcto :
    ∀ (l : List Bool), chequeAdyacentes l = true → sinFeriadosAdyacentes l
  | [] => fun _ j hj => absurd hj (by simp)
  | [a] => fun _ j hj => by
      rintro ⟨-, h2⟩
      have hj0 : j = 0 := by simpa using hj
      subst hj0
      cases h2
  | a :: b :: t => fun h j hj => by
      have hsplit := Bool.and_eq_true_iff.mp h
      cases j with
      | zero =>
        rintro ⟨h1, h2⟩
        have h1a : a = true := h1
        have h2b : b = true := h2
        rw [h1a, h2b] at hsplit
        cases hsplit.1
      | succ j =>
        intro hc
        exact chequeAdyacentes_correcto (b :: t) hsplit.2 j
          (by simpa using hj) hc

/-- The calendar successor of a date. -/
def diaSiguiente (f : Nat × Nat × Nat) : Nat × Nat × Nat :=
  if f.2.2 < diasMes f.1 f.2.1 then (f.1, f.2.1, f.2.2 + 1)
  else if f.2.1 < 12 then (f.1, f.2.1 + 1, 1)
  else (f.1 + 1, 1, 1)

/-- No holiday of `FERIADOS_RD` is immediately followed by another holiday:
the adjacency hypothesis of the seasonality theorem holds on the real
calendar (the smallest gap between holidays is three days). -/
theorem feriados_no_adyacentes :
    ∀ f ∈ FERIADOS_RD, diaSiguiente f ∉ FERIADOS_RD := by decide

theorem estacionalidad_compuesta_testigo :
    (factorEstacionalidadGeneral [12, 12, 12] [true, false, false]).getD 0 1 =
      FACTOR_ESTACIONALIDAD_MENSUAL (([12, 12, 12] : List Nat).getD 0 0) *
        multiplicadorReclamado [true, false, false] 0 :=
  estacionalidad_compuesta [12, 12, 12] [true, false, false] rfl
    (chequeAdyacentes_correcto [true, false, false] (by decide)) 0 (by decide)

/-! ## Customer population lifecycle simulator
(`generar_dim_cliente_masiva`, lines 2497-2646) -/

def ANOS_SIMULACION : List Nat := [2021, 2022, 2023, 2024, 2025]

/-- `NUM_CLIENTES_POR_ANO` (line 1125). -/
def NUM_CLIENTES_POR_ANO (a : Nat) : Nat :=
  match a with
  | 2021 => 61500
  | 2022 => 63000
  | 2023 => 65000
  | 2024 => 67800
  | 2025 => 71000
  | _ => 0

def CHURN_RATE_ANUAL : ℚ := 1/20

/-- One row of the cumulative customer table (the fields the claims speak
about; the Faker-generated display name is omitted). -/
structure Cliente where
  idCliente : Nat
  provincia : String
  canal : String
  segmento : String
  clusterId : Nat
  mesAlta : Nat
  diaAlta : Nat
  activo : Bool
  latitud : ℚ
  longitud : ℚ
  anoCreacion : Nat
deriving Repr, DecidableEq

def clienteDefecto : Cliente :=
  ⟨0, "", "", "E", 4, 1, 1, true, 18, -143/2, 2021⟩

/-- The sampling inputs prepared from `DimGeografia` / `DimCanalDistribucion` /
`PESO_SEGMENTACION_CANAL`. -/
structure GenCtx where
  idsGeo : List String
  pesosGeo : List ℚ
  idsCanal : List String
  nombresCanal : List String
  pesosCanal : List ℚ
  pesoSegCanal : List (String × List (String × ℚ))

/-- The primitive uniform/integer draws one new customer consumes, as a pure
function of the seeded generator state at that point of the stream. -/
structure ClienteDraws where
  uGeo : ℚ
  uCanal : ℚ
  uSeg : ℚ
  uCluster : ℚ
  mesAltaRaw : Nat
  diaAltaRaw : Nat
  uLat : ℚ
  uLon : ℚ

/-- Inverse-CDF weighted categorical sampling (`rng.choice(xs, p=pesos)` with a
uniform draw `u`). -/
def weightedChoice : List ℚ → ℚ → Nat
  | [], _ => 0
  | p :: rest, u => if u < p then 0 else weightedChoice rest (u - p) + 1

/-- `probs / probs.sum()`. -/
def normalizaSimple (ps : List ℚ) : List ℚ := ps.map (fun p => p / ps.sum)

/-- `pesos / suma` when the sum is positive, else a uniform vector
(`np.ones_like(pesos) / len(pesos)`). -/
def preparaPesos (ps : List ℚ) : List ℚ :=
  if 0 < ps.sum then ps.map (fun p => p / ps.sum)
  else List.replicate ps.length (1 / (ps.length : ℚ))

def buscaSeg (l : List (String × List (String × ℚ))) (k : String) :
    Option (List (String × ℚ)) :=
  (l.find? (fun p => p.1 = k)).map Prod.snd

/-- Build one new customer record: geography and channel by weighted choice,
segment conditioned on the channel, cluster correlated with the segment
(A/B draw from clusters {1,2} with p = [0.6, 0.4], others from {3,4} with
p = [0.7, 0.3]), a random date inside the year, uniform coordinates in the
bounding box, `Activo = True`, `Ano_Creacion = ano`. -/
def crearCliente (ctx : GenCtx) (idNum ano : Nat) (d : ClienteDraws) : Cliente :=
  let pesosGeo := preparaPesos ctx.pesosGeo
  let pesosCanal := preparaPesos ctx.pesosCanal
  let geoIdx := weightedChoice pesosGeo d.uGeo
  let canalIdx := weightedChoice pesosCanal d.uCanal
  let canalNombre := ctx.nombresCanal.getD canalIdx ""
  let sc : String × Nat :=
    match buscaSeg ctx.pesoSegCanal canalNombre with
    | some pesosSeg =>
      if pesosSeg.isEmpty then ("E", 4)
      else
        let probs := normalizaSimple (pesosSeg.map Prod.snd)
        let seg := (pesosSeg.map Prod.fst).getD (weightedChoice probs d.uSeg) "E"
        let cluster :=
          if seg = "A" ∨ seg = "B" then
            [1, 2].getD (weightedChoice [3/5, 2/5] d.uCluster) 1
          else
            [3, 4].getD (weightedChoice [7/10, 3/10] d.uCluster) 3
        (seg, cluster)
    | none => ("E", 4)
  { idCliente := idNum
    provincia := ctx.idsGeo.getD geoIdx ""
    canal := ctx.idsCanal.getD canalIdx ""
    segmento := sc.1
    clusterId := sc.2
    mesAlta := 1 + d.mesAltaRaw % 12
    diaAlta := 1 + d.diaAltaRaw % 28
    activo := true
    latitud := 18 + d.uLat * (9/5)
    longitud := -143/2 + d.uLon * 3
    anoCreacion := ano }

/-- The growth inner loop: `for _ in range(num_nuevos)`, incrementing the
global customer counter before each record. -/
def nuevosClientes (ctx : GenCtx) (draw : Nat → ClienteDraws)
    (contador ano num : Nat) : List Cliente :=
  (List.range num).map (fun j => crearCliente ctx (contador + j + 1) ano (draw (contador + j)))

/-- The churn pass: every active customer created in a prior year is an
independent Bernoulli trial against `CHURN_RATE_ANUAL`; candidate `k` consumes
draw `k` of this year's churn vector (`rng.random(size=num_candidatos)`). -/
def churnClientes (ano : Nat) (u : Nat → ℚ) : Nat → List Cliente → List Cliente
  | _, [] => []
  | k, c :: rest =>
    if c.anoCreacion < ano ∧ c.activo then
      (if u k < CHURN_RATE_ANUAL then { c with activo := false } else c) ::
        churnClientes ano u (k+1) rest
    else c :: churnClientes ano u k rest

structure SimState where
  clientes : List Cliente
  contador : Nat

def countActivos (l : List Cliente) : Nat := (l.filter (fun c => c.activo)).length

/-- The customer list after the (possibly skipped) churn step of year index
`i`: churn runs only from the second year on and only when customers exist. -/
def clientesPostChurn (uChurn : Nat → ℚ) (i ano : Nat) (st : SimState) : List Cliente :=
  if 0 < i ∧ st.clientes ≠ [] then churnClientes ano uChurn 0 st.clientes else st.clientes

/-- `shortfall = target_active_count_for_year - current_active_count`. -/
def shortfallDelAno (ano : Nat) (clientes : List Cliente) : ℤ :=
  (NUM_CLIENTES_POR_ANO ano : ℤ) - (countActivos clientes : ℤ)

/-- One year of the simulation: churn, shortfall (`max(0, target - activos)`),
growth, counter update. -/
def pasoAno (ctx : GenCtx) (uChurn : Nat → ℚ) (draw : Nat → ClienteDraws)
    (i ano : Nat) (st : SimState) : SimState :=
  let clientes := clientesPostChurn uChurn i ano st
  let numNuevos := NUM_CLIENTES_POR_ANO ano - countActivos clientes
  { clientes := clientes ++ nuevosClientes ctx draw st.contador ano numNuevos
    contador := st.contador + numNuevos }

/-- The `for i, ano in enumerate(ANOS_SIMULACION)` loop, truncated after `k`
years. -/
def simularHasta (ctx : GenCtx) (uChurn : Nat → Nat → ℚ)
    (draw : Nat → ClienteDraws) : Nat → SimState
  | 0 => ⟨[], 0⟩
  | k+1 =>
    if h : k < ANOS_SIMULACION.length then
      pasoAno ctx (uChurn k) draw k (ANOS_SIMULACION[k]) (simularHasta ctx uChurn draw k)
    else simularHasta ctx uChurn draw k

/-- The full run of the customer simulator. -/
def generar_dim_cliente_masiva (ctx : GenCtx) (uChurn : Nat → Nat → ℚ)
    (draw : Nat → ClienteDraws) : SimState :=
  simularHasta ctx uChurn draw ANOS_SIMULACION.length

theorem nuevosClientes_length (ctx : GenCtx) (draw : Nat → ClienteDraws)
    (contador ano num : Nat) :
    (nuevosClientes ctx draw contador ano num).length = num := by
  simp [nuevosClientes]

theorem nuevosClientes_activo (ctx : GenCtx) (draw : Nat → ClienteDraws)
    (contador ano num : Nat) :
    ∀ c ∈ nuevosClientes ctx draw contador ano num,
      c.activo = true ∧ c.anoCreacion = ano := by
  intro c hc
  simp only [nuevosClientes, List.mem_map] at hc
  obtain ⟨j, -, rfl⟩ := hc
  exact ⟨rfl, rfl⟩

theorem countActivos_append (l1 l2 : List Cliente) :
    countActivos (l1 ++ l2) = countActivos l1 + countActivos l2 := by
  simp [countActivos, List.filter_append]

theorem countActivos_nuevos (ctx : GenCtx) (draw : Nat → ClienteDraws)
    (contador ano num : Nat) :
    countActivos (nuevosClientes ctx draw contador ano num) = num := by
  unfold countActivos
  rw [List.filter_eq_self.mpr, nuevosClientes_length]
  intro a ha
  have h := (nuevosClientes_activo ctx draw contador ano num a ha).1
  simp [h]

/-- C1: each simulated year, after the churn step the simulator computes
`shortfall = target_active_count_for_year - current_active_count`; when
`shortfall <= 0` no new customers are created; when `shortfall > 0` exactly
`shortfall` new records are appended, each flagged active and stamped with the
simulation year; and once growth completes the active count is at least the
target for the year. -/
theorem pasoAno_crecimiento (ctx : GenCtx) (uChurn : Nat → ℚ)
    (draw : Nat → ClienteDraws) (i ano : Nat) (st : SimState) :
    (shortfallDelAno ano (clientesPostChurn uChurn i ano st) ≤ 0 →
      (pasoAno ctx uChurn draw i ano st).clientes = clientesPostChurn uChurn i ano st) ∧
    (0 < shortfallDelAno ano (clientesPostChurn uChurn i ano st) →
      (pasoAno ctx uChurn draw i ano st).clientes =
        clientesPostChurn uChurn i ano st ++
          nuevosClientes ctx draw st.contador ano
            (shortfallDelAno ano (clientesPostChurn uChurn i ano st)).toNat ∧
      (nuevosClientes ctx draw st.contador ano
          (shortfallDelAno ano (clientesPostChurn uChurn i ano st)).toNat).length =
        (shortfallDelAno ano (clientesPostChurn uChurn i ano st)).toNat ∧
      ∀ c ∈ nuevosClientes ctx draw st.contador ano
          (shortfallDelAno ano (clientesPostChurn uChurn i ano st)).toNat,
        c.activo = true ∧ c.anoCreacion = ano) ∧
    NUM_CLIENTES_POR_ANO ano ≤ countActivos (pasoAno ctx uChurn draw i ano st).clientes := by
  have hnum : NUM_CLIENTES_POR_ANO ano -
      countActivos (clientesPostChurn uChurn i ano st) =
      (shortfallDelAno ano (clientesPostChurn uChurn i ano st)).toNat := by
    unfold shortfallDelAno
    omega
  have hpaso : (pasoAno ctx uChurn draw i ano st).clientes =
      clientesPostChurn uChurn i ano st ++
        nuevosClientes ctx draw st.contador ano
          (NUM_CLIENTES_POR_ANO ano -
            countActivos (clientesPostChurn uChurn i ano st)) := rfl
  refine ⟨?_, ?_, ?_⟩
  · intro hle
    rw [hpaso]
    have h0 : NUM_CLIENTES_POR_ANO ano -
        countActivos (clientesPostChurn uChurn i ano st) = 0 := by
      unfold shortfallDelAno at hle
      omega
    rw [h0]
    simp [nuevosClientes]
  · intro hpos
    rw [hpaso, hnum]
    exact ⟨rfl, nuevosClientes_length ctx draw st.contador ano _,
      nuevosClientes_activo ctx draw st.contador ano _⟩
  · rw [hpaso, countActivos_append, countActivos_nuevos]
    omega

def ctxEjemplo : GenCtx := ⟨["P1"], [1], ["C1"], ["Canal"], [1], []⟩

def drawEjemplo : Nat → ClienteDraws := fun _ => ⟨0, 0, 0, 0, 0, 0, 0, 0⟩

def uChurnEjemplo : Nat → ℚ := fun _ => 1

theorem pasoAno_crecimiento_testigo :
    (shortfallDelAno 0 (clientesPostChurn uChurnEjemplo 0 0 ⟨[], 0⟩) ≤ 0 →
      (pasoAno ctxEjemplo uChurnEjemplo drawEjemplo 0 0 ⟨[], 0⟩).clientes =
        clientesPostChurn uChurnEjemplo 0 0 ⟨[], 0⟩) ∧
    (0 < shortfallDelAno 0 (clientesPostChurn uChurnEjemplo 0 0 ⟨[], 0⟩) →
      (pasoAno ctxEjemplo uChurnEjemplo drawEjemplo 0 0 ⟨[], 0⟩).clientes =
        clientesPostChurn uChurnEjemplo 0 0 ⟨[], 0⟩ ++
          nuevosClientes ctxEjemplo drawEjemplo (0 : Nat) 0
            (shortfallDelAno 0 (clientesPostChurn uChurnEjemplo 0 0 ⟨[], 0⟩)).toNat ∧
      (nuevosClientes ctxEjemplo drawEjemplo (0 : Nat) 0
          (shortfallDelAno 0 (clientesPostChurn uChurnEjemplo 0 0 ⟨[], 0⟩)).toNat).length =
        (shortfallDelAno 0 (clientesPostChurn uChurnEjemplo 0 0 ⟨[], 0⟩)).toNat ∧
      ∀ c ∈ nuevosClientes ctxEjemplo drawEjemplo (0 : Nat) 0
          (shortfallDelAno 0 (clientesPostChurn uChurnEjemplo 0 0 ⟨[], 0⟩)).toNat,
        c.activo = true ∧ c.anoCreacion = 0) ∧
    NUM_CLIENTES_POR_ANO 0 ≤
      countActivos (pasoAno ctxEjemplo uChurnEjemplo drawEjemplo 0 0 ⟨[], 0⟩).clientes :=
  pasoAno_crecimiento ctxEjemplo uChurnEjemplo drawEjemplo 0 0 ⟨[], 0⟩

/-- Deactivation: what churn does to a customer record — only the `Activo`
flag changes. -/
def desact (c : Cliente) : Cliente := { c with activo := false }

/-- How one simulated year may transform an existing record: left unchanged or
deactivated; never deleted, never otherwise edited. -/
def relChurn (a b : Cliente) : Prop := b = a ∨ b = desact a

theorem relChurn_refl (a : Cliente) : relChurn a a := Or.inl rfl

theorem desact_desact (a : Cliente) : desact (desact a) = desact a := rfl

theorem relChurn_trans {a b c : Cliente} (h1 : relChurn a b) (h2 : relChurn b c) :
    relChurn a c := by
  rcases h1 with rfl | rfl
  · exact h2
  · rcases h2 with rfl | rfl
    · exact Or.inr rfl
    · exact Or.inr (desact_desact a)

theorem forall2_relChurn_refl (l : List Cliente) : List.Forall₂ relChurn l l := by
  induction l with
  | nil => exact List.Forall₂.nil
  | cons a t ih => exact List.Forall₂.cons (relChurn_refl a) ih

theorem churn_forall2 (ano : Nat) (u : Nat → ℚ) (k : Nat) (l : List Cliente) :
    List.Forall₂ relChurn l (churnClientes ano u k l) := by
  induction l generalizing k with
  | nil => exact List.Forall₂.nil
  | cons c rest ih =>
    unfold churnClientes
    by_cases hc : c.anoCreacion < ano ∧ c.activo = true
    · rw [if_pos hc]
      by_cases hu : u k < CHURN_RATE_ANUAL
      · rw [if_pos hu]
        exact List.Forall₂.cons (Or.inr rfl) (ih (k+1))
      · rw [if_neg hu]
        exact List.Forall₂.cons (Or.inl rfl) (ih (k+1))
    · rw [if_neg hc]
      exact List.Forall₂.cons (Or.inl rfl) (ih k)

theorem postChurn_forall2 (uChurn : Nat → ℚ) (i ano : Nat) (st : SimState) :
    List.Forall₂ relChurn st.clientes (clientesPostChurn uChurn i ano st) := by
  unfold clientesPostChurn
  split
  · exact churn_forall2 ano uChurn 0 st.clientes
  · exact forall2_relChurn_refl st.clientes

theorem pasoAno_take (ctx : GenCtx) (uChurn : Nat → ℚ) (draw : Nat → ClienteDraws)
    (i ano : Nat) (st : SimState) :
    st.clientes.length ≤ (pasoAno ctx uChurn draw i ano st).clientes.length ∧
    List.Forall₂ relChurn st.clientes
      ((pasoAno ctx uChurn draw i ano st).clientes.take st.clientes.length) := by
  have hf := postChurn_forall2 uChurn i ano st
  have hlen : (clientesPostChurn uChurn i ano st).length = st.clientes.length :=
    hf.length_eq.symm
  have hpaso : (pasoAno ctx uChurn draw i ano st).clientes =
      clientesPostChurn uChurn i ano st ++
        nuevosClientes ctx draw st.contador ano
          (NUM_CLIENTES_POR_ANO ano -
            countActivos (clientesPostChurn uChurn i ano st)) := rfl
  constructor
  · rw [hpaso, List.length_append, hlen]
    omega
  · rw [hpaso, ← hlen, List.take_left]
    exact hf

theorem forall2_getD {l1 l2 : List Cliente} (h : List.Forall₂ relChurn l1 l2) :
    ∀ i, i < l1.length →
      relChurn (l1.getD i clienteDefecto) (l2.getD i clienteDefecto) := by
  induction h with
  | nil => intro i hi; simp at hi
  | cons hr ht ih =>
    intro i hi
    cases i with
    | zero => simpa using hr
    | succ j =>
      simp only [List.getD_cons_succ]
      exact ih j (by simpa using hi)

theorem forall2_of_getD : ∀ {l1 l2 : List Cliente}, l1.length = l2.length →
    (∀ i, i < l1.length →
      relChurn (l1.getD i clienteDefecto) (l2.getD i clienteDefecto)) →
    List.Forall₂ relChurn l1 l2
  | [], [], _, _ => List.Forall₂.nil
  | [], _ :: _, h, _ => by simp at h
  | _ :: _, [], h, _ => by simp at h
  | a :: t1, b :: t2, h, hget =>
    List.Forall₂.cons (by simpa using hget 0 (by simp))
      (forall2_of_getD (by simpa using h)
        (fun i hi => by simpa using hget (i+1) (by simpa using hi)))

theorem getD_take_cliente (l : List Cliente) (n i : Nat) (hi : i < n) :
    (l.take n).getD i clienteDefecto = l.getD i clienteDefecto := by
  induction l generalizing n i with
  | nil => simp
  | cons a t ih =>
    cases n with
    | zero => omega
    | succ m =>
      cases i with
      | zero => simp
      | succ j =>
        simp only [List.take_succ_cons, List.getD_cons_succ]
        exact ih m j (by omega)

theorem forall2_take_trans {a b c : List Cliente}
    (h1 : List.Forall₂ relChurn a (b.take a.length))
    (h2 : List.Forall₂ relChurn b (c.take b.length))
    (hab : a.length ≤ b.length) (hbc : b.length ≤ c.length) :
    List.Forall₂ relChurn a (c.take a.length) := by
  have hlen : (c.take a.length).length = a.length := by
    rw [List.length_take]
    omega
  refine forall2_of_getD hlen.symm ?_
  intro i hi
  have g1 := forall2_getD h1 i hi
  rw [getD_take_cliente b a.length i hi] at g1
  have g2 := forall2_getD h2 i (lt_of_lt_of_le hi hab)
  rw [getD_take_cliente c b.length i (lt_of_lt_of_le hi hab)] at g2
  rw [getD_take_cliente c a.length i hi]
  exact relChurn_trans g1 g2

theorem simularHasta_succ (ctx : GenCtx) (uChurn : Nat → Nat → ℚ)
    (draw : Nat → ClienteDraws) (k : Nat) :
    simularHasta ctx uChurn draw (k+1) =
      if h : k < ANOS_SIMULACION.length then
        pasoAno ctx (uChurn k) draw k (ANOS_SIMULACION.get ⟨k, h⟩)
          (simularHasta ctx uChurn draw k)
      else simularHasta ctx uChurn draw k := rfl

/-- C2: customer records are never deleted: between any earlier year `k` and
later year `l` of the run, the table's row count never decreases, and the first
`length-at-k` rows of the later table are exactly the earlier rows with at most
the `Activo` flag flipped to false (churn deactivates, growth only appends). -/
theorem clientes_nunca_borrados (ctx : GenCtx) (uChurn : Nat → Nat → ℚ)
    (draw : Nat → ClienteDraws) (k l : Nat) (hkl : k ≤ l) :
    (simularHasta ctx uChurn draw k).clientes.length ≤
      (simularHasta ctx uChurn draw l).clientes.length ∧
    List.Forall₂ relChurn (simularHasta ctx uChurn draw k).clientes
      ((simularHasta ctx uChurn draw l).clientes.take
        (simularHasta ctx uChurn draw k).clientes.length) := by
  induction l, hkl using Nat.le_induction with
  | base =>
    refine ⟨le_refl _, ?_⟩
    rw [List.take_length]
    exact forall2_relChurn_refl _
  | succ l hkl ih =>
    rw [simularHasta_succ]
    by_cases htop : l < ANOS_SIMULACION.length
    · rw [dif_pos htop]
      have hstep := pasoAno_take ctx (uChurn l) draw l (ANOS_SIMULACION.get ⟨l, htop⟩)
        (simularHasta ctx uChurn draw l)
      exact ⟨le_trans ih.1 hstep.1,
        forall2_take_trans ih.2 hstep.2 ih.1 hstep.1⟩
    · rw [dif_neg htop]
      exact ih

def uChurn2Ejemplo : Nat → Nat → ℚ := fun _ _ => 1

theorem clientes_nunca_borrados_testigo :
    (simularHasta ctxEjemplo uChurn2Ejemplo drawEjemplo 0).clientes.length ≤
      (simularHasta ctxEjemplo uChurn2Ejemplo drawEjemplo 2).clientes.length ∧
    List.Forall₂ relChurn (simularHasta ctxEjemplo uChurn2Ejemplo drawEjemplo 0).clientes
      ((simularHasta ctxEjemplo uChurn2Ejemplo drawEjemplo 2).clientes.take
        (simularHasta ctxEjemplo uChurn2Ejemplo drawEjemplo 0).clientes.length) :=
  clientes_nunca_borrados ctxEjemplo uChurn2Ejemplo drawEjemplo 0 2 (Nat.zero_le 2)

/-! ### Surrogate-key uniqueness (C10): `f"CLI-{contador:06d}"` -/

/-- Decimal digits of `n`, most significant first, as characters. -/
def digitosNat (n : Nat) : List Char := ((Nat.digits 10 n).map Nat.digitChar).reverse

/-- `f"CLI-{n:06d}"`: the prefix `CLI-` followed by `n` zero-padded to at least
six digits. -/
def cadenaCli (n : Nat) : String :=
  String.mk ('C' :: 'L' :: 'I' :: '-' ::
    (List.replicate (6 - (digitosNat n).length) '0' ++ digitosNat n))

def valorDigito (c : Char) : Nat := c.toNat - 48

def decodifica (l : List Char) : Nat :=
  l.foldl (fun a c => 10 * a + valorDigito c) 0

theorem valorDigito_digitChar (d : Nat) (hd : d < 10) :
    valorDigito (Nat.digitChar d) = d := by
  interval_cases d <;> rfl

theorem foldl_digitos (L : List Nat) (hL : ∀ d ∈ L, d < 10) (a : Nat) :
    List.foldl (fun x c => 10 * x + valorDigito c) a ((L.map Nat.digitChar).reverse) =
      a * 10 ^ L.length + Nat.ofDigits 10 L := by
  induction L generalizing a with
  | nil => simp [Nat.ofDigits]
  | cons d t ih =>
    rw [List.map_cons, List.reverse_cons, List.foldl_append]
    rw [ih (fun x hx => hL x (List.mem_cons_of_mem d hx))]
    simp only [List.foldl_cons, List.foldl_nil]
    rw [valorDigito_digitChar d (hL d (List.mem_cons_self d t)), Nat.ofDigits_cons]
    simp only [List.length_cons, pow_succ]
    ring

theorem foldl_ceros (k : Nat) :
    List.foldl (fun a c => 10 * a + valorDigito c) 0 (List.replicate k ('0')) = 0 := by
  induction k with
  | zero => rfl
  | succ m ih => simpa using ih

theorem decodifica_relleno (n : Nat) :
    decodifica (List.replicate (6 - (digitosNat n).length) '0' ++ digitosNat n) = n := by
  unfold decodifica
  rw [List.foldl_append, foldl_ceros]
  unfold digitosNat
  rw [foldl_digitos (Nat.digits 10 n) (fun d hd => Nat.digits_lt_base (by norm_num) hd) 0,
    Nat.ofDigits_digits]
  ring

theorem cadenaCli_inyectiva (a b : Nat) (h : cadenaCli a = cadenaCli b) : a = b := by
  unfold cadenaCli at h
  have hdata := congrArg String.data h
  simp only [List.cons.injEq] at hdata
  have htail := hdata.2.2.2.2
  have := congrArg decodifica htail
  rwa [decodifica_relleno, decodifica_relleno] at this

theorem churn_map_ids (ano : Nat) (u : Nat → ℚ) (k : Nat) (l : List Cliente) :
    (churnClientes ano u k l).map (fun c => c.idCliente) =
      l.map (fun c => c.idCliente) := by
  induction l generalizing k with
  | nil => rfl
  | cons c rest ih =>
    unfold churnClientes
    by_cases hc : c.anoCreacion < ano ∧ c.activo = true
    · rw [if_pos hc]
      by_cases hu : u k < CHURN_RATE_ANUAL
      · rw [if_pos hu]
        simp only [List.map_cons, ih (k+1)]
      · rw [if_neg hu]
        simp only [List.map_cons, ih (k+1)]
    · rw [if_neg hc]
      simp only [List.map_cons, ih k]

theorem postChurn_map_ids (uChurn : Nat → ℚ) (i ano : Nat) (st : SimState) :
    (clientesPostChurn uChurn i ano st).map (fun c => c.idCliente) =
      st.clientes.map (fun c => c.idCliente) := by
  unfold clientesPostChurn
  split
  · exact churn_map_ids ano uChurn 0 st.clientes
  · rfl

theorem nuevos_map_ids (ctx : GenCtx) (draw : Nat → ClienteDraws)
    (contador ano num : Nat) :
    (nuevosClientes ctx draw contador ano num).map (fun c => c.idCliente) =
      (List.range num).map (fun j => contador + j + 1) := by
  unfold nuevosClientes
  rw [List.map_map]
  exact List.map_congr_left (fun j _ => rfl)

theorem pasoAno_map_ids (ctx : GenCtx) (uChurn : Nat → ℚ) (draw : Nat → ClienteDraws)
    (i ano : Nat) (st : SimState) :
    (pasoAno ctx uChurn draw i ano st).clientes.map (fun c => c.idCliente) =
      st.clientes.map (fun c => c.idCliente) ++
        (List.range (NUM_CLIENTES_POR_ANO ano -
          countActivos (clientesPostChurn uChurn i ano st))).map
          (fun j => st.contador + j + 1) := by
  have hpaso : (pasoAno ctx uChurn draw i ano st).clientes =
      clientesPostChurn uChurn i ano st ++
        nuevosClientes ctx draw st.contador ano
          (NUM_CLIENTES_POR_ANO ano -
            countActivos (clientesPostChurn uChurn i ano st)) := rfl
  rw [hpaso, List.map_append, postChurn_map_ids, nuevos_map_ids]

theorem pasoAno_contador (ctx : GenCtx) (uChurn : Nat → ℚ) (draw : Nat → ClienteDraws)
    (i ano : Nat) (st : SimState) :
    (pasoAno ctx uChurn draw i ano st).contador =
      st.contador + (NUM_CLIENTES_POR_ANO ano -
        countActivos (clientesPostChurn uChurn i ano st)) := rfl

theorem simularHasta_ids (ctx : GenCtx) (uChurn : Nat → Nat → ℚ)
    (draw : Nat → ClienteDraws) (k : Nat) :
    ((simularHasta ctx uChurn draw k).clientes.map (fun c => c.idCliente)).Pairwise
        (· < ·) ∧
    ∀ n ∈ (simularHasta ctx uChurn draw k).clientes.map (fun c => c.idCliente),
      n ≤ (simularHasta ctx uChurn draw k).contador := by
  induction k with
  | zero =>
    constructor
    · exact List.Pairwise.nil
    · intro n hn
      simp [simularHasta] at hn
  | succ k ih =>
    rw [simularHasta_succ]
    by_cases htop : k < ANOS_SIMULACION.length
    · rw [dif_pos htop]
      rw [pasoAno_map_ids, pasoAno_contador]
      constructor
      · rw [List.pairwise_append]
        refine ⟨ih.1, ?_, ?_⟩
        · exact (List.pairwise_lt_range _).map _ (fun a b hab => by omega)
        · intro x hx y hy
          have hxb := ih.2 x hx
          simp only [List.mem_map, List.mem_range] at hy
          obtain ⟨j, hj, rfl⟩ := hy
          omega
      · intro n hn
        rw [List.mem_append] at hn
        rcases hn with hn | hn
        · have := ih.2 n hn
          omega
        · simp only [List.mem_map, List.mem_range] at hn
          obtain ⟨j, hj, rfl⟩ := hn
          omega
    · rw [dif_neg htop]
      exact ih

/-- C10: every customer record created by the simulator carries an identifier
`CLI-` plus the zero-padded value of a strictly increasing global counter: the
numeric ids of the final table are strictly increasing in creation order, and
the formatted `ID_Cliente` strings are pairwise distinct across all simulated
years, deactivated records included. -/
theorem ids_cliente_distintos (ctx : GenCtx) (uChurn : Nat → Nat → ℚ)
    (draw : Nat → ClienteDraws) :
    ((generar_dim_cliente_masiva ctx uChurn draw).clientes.map
        (fun c => c.idCliente)).Pairwise (· < ·) ∧
    ((generar_dim_cliente_masiva ctx uChurn draw).clientes.map
        (fun c => cadenaCli c.idCliente)).Nodup := by
  have hp := (simularHasta_ids ctx uChurn draw ANOS_SIMULACION.length).1
  refine ⟨hp, ?_⟩
  have hmap : (generar_dim_cliente_masiva ctx uChurn draw).clientes.map
      (fun c => cadenaCli c.idCliente) =
      ((generar_dim_cliente_masiva ctx uChurn draw).clientes.map
        (fun c => c.idCliente)).map cadenaCli := by
    rw [List.map_map]
    exact List.map_congr_left (fun c _ => rfl)
  rw [hmap]
  exact hp.map cadenaCli
    (fun a b hab heq => absurd (cadenaCli_inyectiva a b heq) (Nat.ne_of_lt hab))

/-! ## Route/logistics assignment engine (`generar_dim_ruta`, lines 3247-3434) -/

structure CediR where
  cediId : String
  nombre : String
  region : String
  capacidad : Option Int
deriving Repr, DecidableEq

structure GeoR where
  provId : String
  nombreProv : String
  region : String
deriving Repr, DecidableEq

structure VehiculoR where
  vehId : String
  marcaModelo : String
  cediAsignado : String
  estado : String
deriving Repr, DecidableEq

structure VendedorR where
  vendId : String
  nombre : String
  tipo : String
  cediBase : String
  estado : String
deriving Repr, DecidableEq

/-- One route row (the geometric fields — geodesic distance, travel time —
are float-valued and outside this embedding; no claim depends on them). -/
structure Ruta where
  idRuta : Nat
  cediOrigen : String
  nombreCediOrigen : String
  provinciaDestino : String
  vehiculoAsignado : String
  marcaModeloVehiculo : String
  vendedorTitular : String
  tipoVendedorRuta : String
deriving Repr, DecidableEq

def vehiculoDefecto : VehiculoR := ⟨"", "", "", ""⟩
def vendedorDefecto : VendedorR := ⟨"", "", "", "", ""⟩
def geoDefecto : GeoR := ⟨"", "", ""⟩

/-- `limite_capacidad`: 10000 when the capacity is null, else
`max(int(capacidad / 50), 10)`. -/
def limiteCapacidad : Option Int → Nat
  | none => 10000
  | some c => max (c / 50).toNat 10

/-- `num_rutas_por_cedi = max(min(cant_veh * 2, limite_capacidad), 10)`. -/
def numRutasPorCedi (cantVeh : Nat) (capacidad : Option Int) : Nat :=
  max (min (cantVeh * 2) (limiteCapacidad capacidad)) 10

/-- Vehicles assigned to the center and in operational state. -/
def vehiculosDisponibles (vehiculos : List VehiculoR) (cediId : String) :
    List VehiculoR :=
  vehiculos.filter (fun v => v.cediAsignado = cediId ∧ v.estado = "Operativo")

/-- Agents based at the center and in active state. -/
def vendedoresDisponibles (vendedores : List VendedorR) (cediId : String) :
    List VendedorR :=
  vendedores.filter (fun v => v.cediBase = cediId ∧ v.estado = "Activo")

/-- Route generation for one center: region-local geographies (falling back to
an oracle-chosen random sample `muestra` when none match, with a warning), the
center's operational vehicle and active agent pools, skip when either pool is
empty, else `num_rutas_por_cedi` routes each drawing vehicle, agent and
destination by `random.choice` from the pools (modelled by the index oracles
`pickV`/`pickS`/`pickG`, reduced modulo the pool size). -/
def rutasDeCedi (cedi : CediR) (geos : List GeoR) (vehiculos : List VehiculoR)
    (vendedores : List VendedorR) (muestra : List GeoR)
    (pickV pickS pickG : Nat → Nat) (consec : Nat) : List Ruta :=
  let geosFiltrados := geos.filter (fun x => x.region = cedi.region)
  let geosObj := if geosFiltrados.isEmpty then muestra else geosFiltrados
  let vehDisp := vehiculosDisponibles vehiculos cedi.cediId
  let vendDisp := vendedoresDisponibles vendedores cedi.cediId
  if vehDisp.isEmpty ∨ vendDisp.isEmpty then []
  else
    (List.range (numRutasPorCedi vehDisp.length cedi.capacidad)).map (fun j =>
      { idRuta := consec + j
        cediOrigen := cedi.cediId
        nombreCediOrigen := cedi.nombre
        provinciaDestino := (geosObj.getD (pickG (consec + j) % geosObj.length)
          geoDefecto).provId
        vehiculoAsignado := (vehDisp.getD (pickV (consec + j) % vehDisp.length)
          vehiculoDefecto).vehId
        marcaModeloVehiculo := (vehDisp.getD (pickV (consec + j) % vehDisp.length)
          vehiculoDefecto).marcaModelo
        vendedorTitular := (vendDisp.getD (pickS (consec + j) % vendDisp.length)
          vendedorDefecto).vendId
        tipoVendedorRuta := (vendDisp.getD (pickS (consec + j) % vendDisp.length)
          vendedorDefecto).tipo })

/-- The `for row_cedi in df_cedi.iter_rows()` loop, threading the route
counter. -/
def rutasAux (geos : List GeoR) (vehiculos : List VehiculoR)
    (vendedores : List VendedorR) (muestra : Nat → List GeoR)
    (pickV pickS pickG : Nat → Nat) : List CediR → Nat → Nat → List Ruta
  | [], _, _ => []
  | cedi :: rest, idx, consec =>
    let rs := rutasDeCedi cedi geos vehiculos vendedores (muestra idx)
      pickV pickS pickG consec
    rs ++ rutasAux geos vehiculos vendedores muestra pickV pickS pickG rest
      (idx + 1) (consec + rs.length)

/-- `generar_dim_ruta`: all centers, route counter starting at 1. -/
def generar_dim_ruta (cedis : List CediR) (geos : List GeoR)
    (vehiculos : List VehiculoR) (vendedores : List VendedorR)
    (muestra : Nat → List GeoR) (pickV pickS pickG : Nat → Nat) : List Ruta :=
  rutasAux geos vehiculos vendedores muestra pickV pickS pickG cedis 0 1

theorem getD_mem {α : Type} (l : List α) (i : Nat) (d : α) (h : i < l.length) :
    l.getD i d ∈ l := by
  induction l generalizing i with
  | nil => simp at h
  | cons a t ih =>
    cases i with
    | zero => exact List.mem_cons_self a t
    | succ j =>
      simp only [List.getD_cons_succ]
      exact List.mem_cons_of_mem a (ih j (by simpa using h))

theorem rutasDeCedi_recursos (cedi : CediR) (geos : List GeoR)
    (vehiculos : List VehiculoR) (vendedores : List VendedorR)
    (muestra : List GeoR) (pickV pickS pickG : Nat → Nat) (consec : Nat) :
    ∀ r ∈ rutasDeCedi cedi geos vehiculos vendedores muestra pickV pickS pickG consec,
      r.cediOrigen = cedi.cediId ∧
      (∃ v ∈ vehiculosDisponibles vehiculos cedi.cediId,
        v.vehId = r.vehiculoAsignado) ∧
      (∃ s ∈ vendedoresDisponibles vendedores cedi.cediId,
        s.vendId = r.vendedorTitular) := by
  intro r hr
  unfold rutasDeCedi at hr
  by_cases hempty : (vehiculosDisponibles vehiculos cedi.cediId).isEmpty = true ∨
      (vendedoresDisponibles vendedores cedi.cediId).isEmpty = true
  · rw [if_pos hempty] at hr
    cases hr
  · rw [if_neg hempty] at hr
    push_neg at hempty
    have hv : 0 < (vehiculosDisponibles vehiculos cedi.cediId).length := by
      cases hl : vehiculosDisponibles vehiculos cedi.cediId with
      | nil => rw [hl] at hempty; exact absurd rfl hempty.1
      | cons a t => simp
    have hs : 0 < (vendedoresDisponibles vendedores cedi.cediId).length := by
      cases hl : vendedoresDisponibles vendedores cedi.cediId with
      | nil => rw [hl] at hempty; exact absurd rfl hempty.2
      | cons a t => simp
    simp only [List.mem_map, List.mem_range] at hr
    obtain ⟨j, -, rfl⟩ := hr
    refine ⟨rfl, ⟨_, getD_mem _ _ _ (Nat.mod_lt _ hv), rfl⟩,
      ⟨_, getD_mem _ _ _ (Nat.mod_lt _ hs), rfl⟩⟩

/-- C3: every generated route's vehicle is one of the operational vehicles
assigned to the route's origin center, and its agent is one of the active
agents based at that same center — no cross-center assignment. -/
theorem rutas_recursos_locales (cedis : List CediR) (geos : List GeoR)
    (vehiculos : List VehiculoR) (vendedores : List VendedorR)
    (muestra : Nat → List GeoR) (pickV pickS pickG : Nat → Nat) :
    ∀ r ∈ generar_dim_ruta cedis geos vehiculos vendedores muestra pickV pickS pickG,
      (∃ v ∈ vehiculos, v.vehId = r.vehiculoAsignado ∧
        v.cediAsignado = r.cediOrigen ∧ v.estado = "Operativo") ∧
      (∃ s ∈ vendedores, s.vendId = r.vendedorTitular ∧
        s.cediBase = r.cediOrigen ∧ s.estado = "Activo") := by
  have haux : ∀ (cs : List CediR) (idx consec : Nat),
      ∀ r ∈ rutasAux geos vehiculos vendedores muestra pickV pickS pickG cs idx consec,
        (∃ v ∈ vehiculos, v.vehId = r.vehiculoAsignado ∧
          v.cediAsignado = r.cediOrigen ∧ v.estado = "Operativo") ∧
        (∃ s ∈ vendedores, s.vendId = r.vendedorTitular ∧
          s.cediBase = r.cediOrigen ∧ s.estado = "Activo") := by
    intro cs
    induction cs with
    | nil => intro idx consec r hr; cases hr
    | cons cedi rest ih =>
      intro idx consec r hr
      rw [rutasAux, List.mem_append] at hr
      rcases hr with hr | hr
      · obtain ⟨horig, ⟨v, hv, hvid⟩, ⟨sdr, hsd, hsid⟩⟩ :=
          rutasDeCedi_recursos cedi geos vehiculos vendedores (muestra idx)
            pickV pickS pickG consec r hr
        unfold vehiculosDisponibles at hv
        unfold vendedoresDisponibles at hsd
        rw [List.mem_filter] at hv hsd
        have hvp : v.cediAsignado = cedi.cediId ∧ v.estado = "Operativo" :=
          of_decide_eq_true hv.2
        have hsp : sdr.cediBase = cedi.cediId ∧ sdr.estado = "Activo" :=
          of_decide_eq_true hsd.2
        exact ⟨⟨v, hv.1, hvid, hvp.1.trans horig.symm, hvp.2⟩,
          ⟨sdr, hsd.1, hsid, hsp.1.trans horig.symm, hsp.2⟩⟩
      · exact ih (idx + 1) (consec + _) r hr
  exact haux cedis 0 1

theorem rutas_recursos_locales_testigo :
    (∃ v ∈ [(⟨"V1", "M", "C1", "Operativo"⟩ : VehiculoR)],
      v.vehId = (⟨1, "C1", "CEDI Uno", "G1", "V1", "M", "S1", "T"⟩ : Ruta).vehiculoAsignado ∧
      v.cediAsignado = (⟨1, "C1", "CEDI Uno", "G1", "V1", "M", "S1", "T"⟩ : Ruta).cediOrigen ∧
      v.estado = "Operativo") ∧
    (∃ s ∈ [(⟨"S1", "N", "T", "C1", "Activo"⟩ : VendedorR)],
      s.vendId = (⟨1, "C1", "CEDI Uno", "G1", "V1", "M", "S1", "T"⟩ : Ruta).vendedorTitular ∧
      s.cediBase = (⟨1, "C1", "CEDI Uno", "G1", "V1", "M", "S1", "T"⟩ : Ruta).cediOrigen ∧
      s.estado = "Activo") :=
  rutas_recursos_locales [⟨"C1", "CEDI Uno", "Norte", some 1000⟩] [⟨"G1", "P", "Norte"⟩]
    [⟨"V1", "M", "C1", "Operativo"⟩] [⟨"S1", "N", "T", "C1", "Activo"⟩]
    (fun _ => []) (fun _ => 0) (fun _ => 0) (fun _ => 0)
    ⟨1, "C1", "CEDI Uno", "G1", "V1", "M", "S1", "T"⟩ (by decide)

/-- C4 counterexample: a center with exactly 1 operational vehicle (and an
agent) generates 10 routes, exceeding vehicles x fan-out = 1 x 2: the floor of
10 is applied after the fan-out cap, so the fan-out bound does not hold for
small fleets. -/
theorem rutas_limite_contraejemplo :
    (vehiculosDisponibles [⟨"V1", "M", "C1", "Operativo"⟩] "C1").length = 1 ∧
    (rutasDeCedi ⟨"C1", "CEDI Uno", "Norte", some 1000⟩ [⟨"G1", "P", "Norte"⟩]
        [⟨"V1", "M", "C1", "Operativo"⟩] [⟨"S1", "N", "T", "C1", "Activo"⟩] []
        (fun _ => 0) (fun _ => 0) (fun _ => 0) 1).length = 10 ∧
    ¬((rutasDeCedi ⟨"C1", "CEDI Uno", "Norte", some 1000⟩ [⟨"G1", "P", "Norte"⟩]
        [⟨"V1", "M", "C1", "Operativo"⟩] [⟨"S1", "N", "T", "C1", "Activo"⟩] []
        (fun _ => 0) (fun _ => 0) (fun _ => 0) 1).length ≤
      (vehiculosDisponibles [⟨"V1", "M", "C1", "Operativo"⟩] "C1").length * 2) := by
  exact ⟨rfl, rfl, by decide⟩

theorem limiteCapacidad_ge_10 (c : Option Int) : 10 ≤ limiteCapacidad c := by
  cases c with
  | none => norm_num [limiteCapacidad]
  | some k => exact le_max_right _ _

theorem rutasDeCedi_length (cedi : CediR) (geos : List GeoR)
    (vehiculos : List VehiculoR) (vendedores : List VendedorR)
    (muestra : List GeoR) (pickV pickS pickG : Nat → Nat) (consec : Nat)
    (hv : vehiculosDisponibles vehiculos cedi.cediId ≠ [])
    (hs : vendedoresDisponibles vendedores cedi.cediId ≠ []) :
    (rutasDeCedi cedi geos vehiculos vendedores muestra pickV pickS pickG
        consec).length =
      numRutasPorCedi (vehiculosDisponibles vehiculos cedi.cediId).length
        cedi.capacidad := by
  unfold rutasDeCedi
  rw [if_neg (by
    rintro (h | h)
    · exact hv (List.isEmpty_iff.mp h)
    · exact hs (List.isEmpty_iff.mp h))]
  rw [List.length_map, List.length_range]

/-- C4 amended: for every center with non-empty vehicle and agent pools, the
route count equals `max(min(2 x vehicles, capacity ceiling), 10)`: it is
bounded above by the capacity-derived ceiling (itself always at least 10) and
by `max(2 x vehicles, 10)`, and bounded below by the floor 10 — the floor
overrides the fan-out cap when `2 x vehicles < 10`.  In particular a center
with 10 operational vehicles generates at most 20 routes and at least 10. -/
theorem rutas_limite_correcto (cedi : CediR) (geos : List GeoR)
    (vehiculos : List VehiculoR) (vendedores : List VendedorR)
    (muestra : List GeoR) (pickV pickS pickG : Nat → Nat) (consec : Nat)
    (hv : vehiculosDisponibles vehiculos cedi.cediId ≠ [])
    (hs : vendedoresDisponibles vendedores cedi.cediId ≠ []) :
    (rutasDeCedi cedi geos vehiculos vendedores muestra pickV pickS pickG
        consec).length =
      max (min ((vehiculosDisponibles vehiculos cedi.cediId).length * 2)
        (limiteCapacidad cedi.capacidad)) 10 ∧
    10 ≤ (rutasDeCedi cedi geos vehiculos vendedores muestra pickV pickS pickG
        consec).length ∧
    (rutasDeCedi cedi geos vehiculos vendedores muestra pickV pickS pickG
        consec).length ≤ limiteCapacidad cedi.capacidad ∧
    (rutasDeCedi cedi geos vehiculos vendedores muestra pickV pickS pickG
        consec).length ≤
      max ((vehiculosDisponibles vehiculos cedi.cediId).length * 2) 10 ∧
    ((vehiculosDisponibles vehiculos cedi.cediId).length = 10 →
      (rutasDeCedi cedi geos vehiculos vendedores muestra pickV pickS pickG
        consec).length ≤ 20) := by
  have hl := rutasDeCedi_length cedi geos vehiculos vendedores muestra
    pickV pickS pickG consec hv hs
  have hcap := limiteCapacidad_ge_10 cedi.capacidad
  unfold numRutasPorCedi at hl
  refine ⟨hl, ?_, ?_, ?_, ?_⟩ <;> rw [hl] <;> omega

theorem rutas_limite_correcto_testigo :
    (rutasDeCedi ⟨"C1", "CEDI Uno", "Norte", some 1000⟩ [⟨"G1", "P", "Norte"⟩]
        [⟨"V1", "M", "C1", "Operativo"⟩] [⟨"S1", "N", "T", "C1", "Activo"⟩] []
        (fun _ => 0) (fun _ => 0) (fun _ => 0) 1).length =
      max (min ((vehiculosDisponibles [⟨"V1", "M", "C1", "Operativo"⟩] "C1").length * 2)
        (limiteCapacidad (some 1000))) 10 ∧
    10 ≤ (rutasDeCedi ⟨"C1", "CEDI Uno", "Norte", some 1000⟩ [⟨"G1", "P", "Norte"⟩]
        [⟨"V1", "M", "C1", "Operativo"⟩] [⟨"S1", "N", "T", "C1", "Activo"⟩] []
        (fun _ => 0) (fun _ => 0) (fun _ => 0) 1).length ∧
    (rutasDeCedi ⟨"C1", "CEDI Uno", "Norte", some 1000⟩ [⟨"G1", "P", "Norte"⟩]
        [⟨"V1", "M", "C1", "Operativo"⟩] [⟨"S1", "N", "T", "C1", "Activo"⟩] []
        (fun _ => 0) (fun _ => 0) (fun _ => 0) 1).length ≤
      limiteCapacidad (some 1000) ∧
    (rutasDeCedi ⟨"C1", "CEDI Uno", "Norte", some 1000⟩ [⟨"G1", "P", "Norte"⟩]
        [⟨"V1", "M", "C1", "Operativo"⟩] [⟨"S1", "N", "T", "C1", "Activo"⟩] []
        (fun _ => 0) (fun _ => 0) (fun _ => 0) 1).length ≤
      max ((vehiculosDisponibles [⟨"V1", "M", "C1", "Operativo"⟩] "C1").length * 2) 10 ∧
    ((vehiculosDisponibles [⟨"V1", "M", "C1", "Operativo"⟩] "C1").length = 10 →
      (rutasDeCedi ⟨"C1", "CEDI Uno", "Norte", some 1000⟩ [⟨"G1", "P", "Norte"⟩]
        [⟨"V1", "M", "C1", "Operativo"⟩] [⟨"S1", "N", "T", "C1", "Activo"⟩] []
        (fun _ => 0) (fun _ => 0) (fun _ => 0) 1).length ≤ 20) :=
  rutas_limite_correcto ⟨"C1", "CEDI Uno", "Norte", some 1000⟩ [⟨"G1", "P", "Norte"⟩]
    [⟨"V1", "M", "C1", "Operativo"⟩] [⟨"S1", "N", "T", "C1", "Activo"⟩] []
    (fun _ => 0) (fun _ => 0) (fun _ => 0) 1 (by decide) (by decide)

/-! ## Seeded determinism and the vehicle mileage draw
(`generar_dim_vehiculo`, lines 3157-3189) -/

/-- `kilometraje_actual`: `base = (date.today().year - anho_fab) * 20000`, then
`rng.integers(max(1000, base - 10000), base + 30000)` — the bounds depend on
the wall-clock year `anioHoy`, not only on the seed.  The raw integer draw `u`
stands for the seeded generator's output at that stream position. -/
def kilometrajeActual (anioHoy anhoFab : Nat) (u : Nat) : Nat :=
  let base := (anioHoy - anhoFab) * 20000
  let lo := max 1000 (base - 10000)
  let hi := base + 30000
  lo + u % (hi - lo)

/-- C9 failing input: with the same seed (hence the same raw draw `u = 0`) and
a 2015 vehicle, a run executed while `date.today().year = 2025` writes
`Kilometraje_Actual = 190000` but a run executed in 2026 writes `210000`: the
emitted tables differ although the seed is identical, because the sampling
bounds read the wall clock. -/
theorem kilometraje_depende_de_fecha :
    kilometrajeActual 2025 2015 0 = 190000 ∧
    kilometrajeActual 2026 2015 0 = 210000 ∧
    kilometrajeActual 2025 2015 0 ≠ kilometrajeActual 2026 2015 0 := by
  refine ⟨rfl, rfl, ?_⟩
  intro h
  simp [kilometrajeActual] at h

end Simulador
